import Mathlib

/-!
Verification of the command-repair and escalation pipeline of the
`Projet-Deep-learning` repository.  The Python sources are shallowly
embedded: each Python function becomes an executable Lean definition of
the same name (snake_case preserved), dictionaries become structures or
association lists that preserve insertion order, `None` becomes `Option`,
exceptions become `Except`/`Option` values, and the external sandboxed
runner is abstracted as an oracle `String → SimOutcome`.
-/

namespace NmapPipeline

/-! ## Basic text utilities (Python `str` operations on `List Char`) -/

/-- Python `\s` whitespace class: space, tab, newline, carriage return,
vertical tab, form feed. -/
def isPySpace (c : Char) : Bool :=
  c = ' ' || c = '\t' || c = '\n' || c = '\r' || c = '\x0b' || c = '\x0c'

/-- Python `str.strip` on character lists. -/
def stripChars (l : List Char) : List Char :=
  ((l.dropWhile isPySpace).reverse.dropWhile isPySpace).reverse

/-- Python `str.strip`. -/
def pyStrip (s : String) : String := ⟨stripChars s.data⟩

/-- Python `str.lower` (ASCII suffices for all strings in this code base). -/
def lowerStr (s : String) : String := ⟨s.data.map Char.toLower⟩

/-- Does `needle` occur as a contiguous sublist of `hay`?
(Python `needle in hay` for nonempty `needle`; an empty needle also
returns `true`, as in Python.) -/
def containsSub (needle : List Char) : List Char → Bool
  | [] => needle.isPrefixOf []
  | c :: rest => needle.isPrefixOf (c :: rest) || containsSub needle rest

/-- Python `sub in s` on strings. -/
def strContains (s sub : String) : Bool := containsSub sub.data s.data

/-- Python `s.startswith (p)` on strings. -/
def strStartsWith (s p : String) : Bool := p.data.isPrefixOf s.data

/-- Python `str.replace` (all non-overlapping occurrences, left to right).
An empty `old` leaves the list unchanged (never used with empty `old`). -/
def replaceAllCharsFuel (old new : List Char) : Nat → List Char → List Char
  | 0, l => l
  | _, [] => []
  | fuel + 1, c :: rest =>
    if old = [] then c :: replaceAllCharsFuel old new fuel rest
    else if old.isPrefixOf (c :: rest) then
      new ++ replaceAllCharsFuel old new fuel (rest.drop (old.length - 1))
    else
      c :: replaceAllCharsFuel old new fuel rest

def replaceAllChars (old new l : List Char) : List Char :=
  replaceAllCharsFuel old new l.length l

/-- Python `s.replace (old, new)` on strings. -/
def strReplace (s old new : String) : String :=
  ⟨replaceAllChars old.data new.data s.data⟩

/-- First index at which `needle` occurs in `hay`. -/
def findSub (needle : List Char) : List Char → Option Nat
  | [] => if needle.isPrefixOf [] then some 0 else none
  | c :: rest =>
    if needle.isPrefixOf (c :: rest) then some 0
    else (findSub needle rest).map (· + 1)

/-- Case-insensitive substring test (`re.search` of a literal pattern with
`re.IGNORECASE`). -/
def containsCI (hay pat : String) : Bool :=
  containsSub (lowerStr pat).data (lowerStr hay).data

/-! ## `validation/security_rules.py` — Risk Engine -/

/-- Source `SecurityRules.FORBIDDEN_FLAGS`, in insertion order. -/
def FORBIDDEN_FLAGS : List (String × String) :=
  [("--script", "Script execution not allowed"),
   ("-sC", "Default script execution not allowed"),
   ("-oN", "File output not allowed"),
   ("-oX", "XML output not allowed"),
   ("-oG", "Grepable output not allowed"),
   ("-oA", "All format output not allowed"),
   ("--stylesheet", "Stylesheet loading not allowed"),
   ("--osscan-guess", "Aggressive OS detection not allowed"),
   ("--badsum", "Invalid checksum scanning not allowed"),
   ("-T5", "Insane timing template not allowed (may cause network issues)")]

/-- Source `SecurityRules.WARNING_FLAGS`, in insertion order. -/
def WARNING_FLAGS : List (String × String) :=
  [("-A", "Aggressive scan (OS detection, version detection, script scanning, traceroute)"),
   ("-sS", "SYN stealth scan (requires root privileges)"),
   ("-sU", "UDP scan (slow and resource intensive)"),
   ("-O", "OS detection (requires root privileges)"),
   ("-T4", "Aggressive timing (may be detected by IDS/IPS)"),
   ("--traceroute", "Traceroute enabled"),
   ("-sV", "Service version detection"),
   ("-p-", "Scanning all 65535 ports (very slow)")]

/-- Source `SecurityRules.UNSAFE_RANGES`. -/
def UNSAFE_RANGES : List String := ["224.0.0.0/4", "240.0.0.0/4"]

/-- Source `SecurityRules.SAFE_TEST_TARGETS`. -/
def SAFE_TEST_TARGETS : List String := ["scanme.nmap.org", "scanme.org"]

structure FlagViolation where
  flag : String
  reason : String
  severity : String
  deriving DecidableEq, Repr

/-- Source `SecurityRules.check_forbidden_flags`: one violation per
(flag, forbidden entry) pair with `flag.startswith (forbidden)`. -/
def check_forbidden_flags (flags : List String) : List FlagViolation :=
  flags.foldr
    (fun f acc =>
      FORBIDDEN_FLAGS.filterMap
        (fun p => if strStartsWith f p.1 then
            some ⟨f, p.2, "critical"⟩ else none) ++ acc) []

structure FlagWarning where
  flag : String
  reason : String
  severity : String
  deriving DecidableEq, Repr

/-- Source `SecurityRules.check_warning_flags`. -/
def check_warning_flags (flags : List String) : List FlagWarning :=
  flags.foldr
    (fun f acc =>
      WARNING_FLAGS.filterMap
        (fun p => if strStartsWith f p.1 then
            some ⟨f, p.2, "warning"⟩ else none) ++ acc) []

/-! IPv4 parsing mirroring Python `ipaddress`:
an address is four dot-separated octets (1–3 digits, value ≤ 255, no
leading zeros), an optional `/prefix` with `prefix ≤ 32`; any failure
raises `ValueError` in Python, i.e. yields `none` here.  A network is
kept as (first address, prefix length); `strict=False` masks host bits. -/

/-- Parse one octet as `ipaddress._parse_octet` does. -/
def parse_octet (l : List Char) : Option Nat :=
  if l = [] || l.length > 3 || !l.all Char.isDigit then none
  else if l.length > 1 && l.head? = some '0' then none
  else
    let v := l.foldl (fun a c => a * 10 + (c.toNat - 48)) 0
    if v ≤ 255 then some v else none

/-- Python `str.split (sep)` for a single-character separator. -/
def splitOnCharAux (sep : Char) : List Char → List Char → List (List Char)
  | [], acc => [acc.reverse]
  | c :: rest, acc =>
    if c = sep then acc.reverse :: splitOnCharAux sep rest []
    else splitOnCharAux sep rest (c :: acc)

def splitOnChar (sep : Char) (s : String) : List String :=
  (splitOnCharAux sep s.data []).map (fun l => ⟨l⟩)

/-- Parse a dotted-quad IPv4 address to its 32-bit numeric value. -/
def parse_ipv4_address (s : String) : Option Nat :=
  match (splitOnChar '.' s).map (fun p => parse_octet p.data) with
  | [some a, some b, some c, some d] => some (((a * 256 + b) * 256 + c) * 256 + d)
  | _ => none

/-- Parse a prefix length string (`isdigit` then `int`, must be ≤ 32). -/
def parse_prefix_len (l : List Char) : Option Nat :=
  if l = [] || !l.all Char.isDigit then none
  else
    let v := l.foldl (fun a c => a * 10 + (c.toNat - 48)) 0
    if v ≤ 32 then some v else none

/-- A network as (network address, prefix length). -/
structure IpNetwork where
  base : Nat
  prefixLen : Nat
  deriving DecidableEq, Repr

/-- Source `ipaddress.ip_network (s, strict := False)` (with `/32` added for bare
addresses, as `is_ip_in_unsafe_range` does); `none` models `ValueError`. -/
def parse_ip_network (s : String) : Option IpNetwork :=
  match splitOnChar '/' s with
  | [a] => (parse_ipv4_address a).map (fun v => ⟨v, 32⟩)
  | [a, p] => do
      let v ← parse_ipv4_address a
      let pl ← parse_prefix_len p.data
      let block := 2 ^ (32 - pl)
      pure ⟨v - v % block, pl⟩
  | _ => none

/-- Source `IPv4Network.overlaps`: the two address intervals intersect. -/
def network_overlaps (n1 n2 : IpNetwork) : Bool :=
  let last1 := n1.base + (2 ^ (32 - n1.prefixLen) - 1)
  let last2 := n2.base + (2 ^ (32 - n2.prefixLen) - 1)
  n1.base ≤ last2 && n2.base ≤ last1

/-- Source `SecurityRules.is_ip_in_unsafe_range`: a `ValueError` from address
parsing is caught and yields `(False, None)`. -/
def is_ip_in_unsafe_range (ip_str : String) : Bool × Option String :=
  match parse_ip_network ip_str with
  | none => (false, none)
  | some net =>
    match UNSAFE_RANGES.find?
        (fun r => match parse_ip_network r with
          | some u => network_overlaps net u
          | none => false) with
    | some r => (true, some ("Target in restricted range: " ++ r))
    | none => (false, none)

/-- Source `SecurityRules.is_safe_test_target`. -/
def is_safe_test_target (target : String) : Bool :=
  (SAFE_TEST_TARGETS.map lowerStr).contains (lowerStr target)

/-- The target regex `^(\d{1,3}\.){3}\d{1,3}(\/\d{1,2})?$` used both by
`check_targets` and the validator. -/
def ipOctetsShaped : Nat → List Char → Bool
  | 0, l =>
    let ds := l.takeWhile Char.isDigit
    let rest := l.drop ds.length
    decide (1 ≤ ds.length ∧ ds.length ≤ 3) &&
      (match rest with
       | [] => true
       | '/' :: r2 =>
         let ps := r2.takeWhile Char.isDigit
         decide (1 ≤ ps.length ∧ ps.length ≤ 2) && r2.drop ps.length = []
       | _ => false)
  | n + 1, l =>
    let ds := l.takeWhile Char.isDigit
    let rest := l.drop ds.length
    decide (1 ≤ ds.length ∧ ds.length ≤ 3) &&
      (match rest with
       | '.' :: r2 => ipOctetsShaped n r2
       | _ => false)

def ip_shaped (t : String) : Bool :=
  ipOctetsShaped 3 t.data

structure UnsafeTargetEntry where
  target : String
  reason : String
  severity : String
  deriving DecidableEq, Repr

structure SafeTargetEntry where
  target : String
  status : String
  deriving DecidableEq, Repr

structure TargetCheck where
  unsafe_targets : List UnsafeTargetEntry
  safe_targets : List SafeTargetEntry
  deriving DecidableEq, Repr

def TargetCheck.has_unsafe (t : TargetCheck) : Bool := !t.unsafe_targets.isEmpty

/-- Source `SecurityRules.check_targets`. -/
def check_targets (targets : List String) : TargetCheck :=
  targets.foldr
    (fun target acc =>
      if is_safe_test_target target then
        { acc with safe_targets := ⟨target, "safe_test_target"⟩ :: acc.safe_targets }
      else if ip_shaped target then
        match is_ip_in_unsafe_range target with
        | (true, reason) =>
          { acc with unsafe_targets :=
              ⟨target, reason.getD "", "high"⟩ :: acc.unsafe_targets }
        | (false, _) =>
          { acc with safe_targets := ⟨target, "allowed"⟩ :: acc.safe_targets }
      else
        { acc with safe_targets := ⟨target, "domain_allowed"⟩ :: acc.safe_targets })
    ⟨[], []⟩

/-- Source `SecurityRules._get_recommendation`. -/
def get_recommendation (risk_level : String) (allow_execution : Bool) : String :=
  if !allow_execution then
    "BLOCK: Command contains forbidden elements and should not be executed."
  else if risk_level = "critical" || risk_level = "high" then
    "CAUTION: Command has high risk factors. Review carefully before execution."
  else if risk_level = "medium" then
    "WARNING: Command has some risk factors. Proceed with caution."
  else
    "ALLOW: Command appears safe to execute."

structure SecurityEval where
  allowed : Bool
  risk_score : Nat
  risk_level : String
  risk_factors : List String
  violations : List FlagViolation
  warnings : List FlagWarning
  target_validation : TargetCheck
  recommendation : String
  deriving DecidableEq, Repr

/-- Source `SecurityRules.evaluate_command`: weighted risk score (forbidden
flag = 40, warning flag = 10, unsafe target = 30), clamped to [0, 100];
thresholds 70/40/20 for critical/high/medium; allowed iff no forbidden
violations and no unsafe targets. -/
def evaluate_command (flags targets : List String) : SecurityEval :=
  let forbidden := check_forbidden_flags flags
  let warning := check_warning_flags flags
  let target_result := check_targets targets
  let raw := forbidden.length * 40 + warning.length * 10 +
    target_result.unsafe_targets.length * 30
  let risk_score := min 100 raw
  let risk_factors :=
    (if !forbidden.isEmpty then ["forbidden_flags"] else []) ++
    (if !warning.isEmpty then ["warning_flags"] else []) ++
    (if target_result.has_unsafe then ["unsafe_targets"] else [])
  let risk_level :=
    if risk_score ≥ 70 then "critical"
    else if risk_score ≥ 40 then "high"
    else if risk_score ≥ 20 then "medium"
    else "low"
  let allow_execution := forbidden.isEmpty && target_result.unsafe_targets.isEmpty
  { allowed := allow_execution
    risk_score := risk_score
    risk_level := risk_level
    risk_factors := risk_factors
    violations := forbidden
    warnings := warning
    target_validation := target_result
    recommendation := get_recommendation risk_level allow_execution }

/-! ## `validation/validator.py` — Structural Validator -/

/-- Characters of the injection regex `[;&|`+"`"+`]|(\$\()|(\|\|)|(&&)|(<)|(>)`
that match single characters. -/
def injectionChars : List Char := (";&|`<>").data

/-- The injection regex matches iff one of the single characters occurs or
the substring `$(` occurs. -/
def hasInjection (s : String) : Bool :=
  s.data.any (fun c => injectionChars.contains c) || strContains s "$("

/-- Tokenizer state for `shlex.split` (POSIX mode): outside quotes or
inside a `'`/`"` quote. -/
inductive ShlexState where
  | normal
  | quoted (q : Char)
  deriving DecidableEq

/-- Source `shlex.split` (POSIX, whitespace_split): whitespace separates tokens,
backslash escapes the next character outside quotes, single quotes are
fully literal, inside double quotes a backslash only escapes `"` and `\`.
An unterminated quote or trailing backslash raises `ValueError`. -/
def shlexRun : List Char → ShlexState → Option (List Char) → List String →
    Except String (List String)
  | [], .normal, none, toks => .ok toks
  | [], .normal, some t, toks => .ok (toks ++ [⟨t⟩])
  | [], .quoted _, _, _ => .error "No closing quotation"
  | c :: rest, .normal, tok, toks =>
    if isPySpace c then
      match tok with
      | none => shlexRun rest .normal none toks
      | some t => shlexRun rest .normal none (toks ++ [⟨t⟩])
    else if c = '\\' then
      match rest with
      | [] => .error "No escaped character"
      | d :: r2 => shlexRun r2 .normal (some (tok.getD [] ++ [d])) toks
    else if c = '\'' || c = '"' then
      shlexRun rest (.quoted c) (some (tok.getD [])) toks
    else
      shlexRun rest .normal (some (tok.getD [] ++ [c])) toks
  | c :: rest, .quoted q, tok, toks =>
    if c = q then
      shlexRun rest .normal (some (tok.getD [])) toks
    else if q = '"' && c = '\\' then
      match rest with
      | [] => .error "No escaped character"
      | d :: r2 =>
        let add := if d = '"' || d = '\\' then [d] else ['\\', d]
        shlexRun r2 (.quoted q) (some (tok.getD [] ++ add)) toks
    else
      shlexRun rest (.quoted q) (some (tok.getD [] ++ [c])) toks

/-- Source `shlex.split`. -/
def shlexSplit (s : String) : Except String (List String) :=
  shlexRun s.data .normal none []

/-- Flags that consume a following argument token. -/
def ARG_TAKING_FLAGS : List String :=
  ["-p", "--ports", "--script", "--script-args", "-oA", "-oN", "-oX"]

/-- The flag/target separation loop of `validate_nmap_command` (step 5). -/
def separate_flags_targets : List String → Bool → List String × List String
  | [], _ => ([], [])
  | x :: xs, skip =>
    if skip then separate_flags_targets xs false
    else if strStartsWith x "-" then
      let (fs, ts) := separate_flags_targets xs (ARG_TAKING_FLAGS.contains x)
      (x :: fs, ts)
    else
      let (fs, ts) := separate_flags_targets xs false
      (fs, x :: ts)

/-- Domain regex `^(?!-)[A-Za-z0-9-]{1,63}(?<!-)(\.[A-Za-z]{2,})+$`. -/
def domainGroupsFuel : Nat → List Char → Bool
  | 0, _ => false
  | fuel + 1, l =>
    match l with
    | '.' :: r =>
      let as := r.takeWhile Char.isAlpha
      let r2 := r.drop as.length
      decide (2 ≤ as.length) && (r2 = [] || domainGroupsFuel fuel r2)
    | _ => false

def domain_shaped (t : String) : Bool :=
  let isLabelChar : Char → Bool := fun c => c.isAlpha || c.isDigit || c = '-'
  let lbl := t.data.takeWhile isLabelChar
  let rest := t.data.drop lbl.length
  decide (1 ≤ lbl.length ∧ lbl.length ≤ 63) &&
    lbl.head? ≠ some '-' && lbl.getLast? ≠ some '-' &&
    domainGroupsFuel rest.length rest

/-- The response dictionary of `validate_nmap_command`; keys absent from
the dictionary are `none` (`blocked_by_security` defaults to `false` in
the sense of "key absent"). -/
structure ValidationResponse where
  command : String
  valid : Bool
  severity : String
  error : Option String := none
  syntax_descr : Option String := none
  flags : Option (List String) := none
  targets : Option (List String) := none
  security : Option SecurityEval := none
  blocked_by_security : Bool := false
  security_issues : Option (List String) := none
  warnings : Option (List String) := none
  risk_score : Option Nat := none
  risk_level : Option String := none
  recommendation : Option String := none
  executed : Option Bool := none
  execution_test : Option String := none
  deriving Repr

/-- Source `validate_nmap_command` with the default arguments
(`execute_real = False`, `apply_security_rules = True`).  Every Python
`return` becomes a branch result; the `shlex.ValueError` is caught and
reported through the `error` field. -/
def validate_nmap_command (cmd : String) : ValidationResponse :=
  let base : ValidationResponse := { command := cmd, valid := false, severity := "high" }
  if cmd = "" then
    { base with error := some "Empty or invalid command." }
  else
    let cmd' := pyStrip cmd
    if hasInjection cmd' then
      { base with error := some "Possible command injection detected.",
                  severity := "critical" }
    else
      match shlexSplit cmd' with
      | .error e => { base with error := some ("Command parsing failed: " ++ e) }
      | .ok parts =>
        match parts with
        | [] => { base with error := some "Command must start with 'nmap'." }
        | p0 :: restParts =>
          if lowerStr p0 ≠ "nmap" then
            { base with error := some "Command must start with 'nmap'." }
          else
            let (flags, targets) := separate_flags_targets restParts false
            if targets = [] then
              { base with error := some "No scan target specified.",
                          severity := "medium" }
            else
              let invalid_targets :=
                targets.filter (fun t => !(ip_shaped t || domain_shaped t))
              if invalid_targets ≠ [] then
                { base with error := some ("Invalid target format: " ++
                    String.intercalate ", " invalid_targets),
                            severity := "medium" }
              else
                let ok : ValidationResponse :=
                  { base with valid := true,
                              syntax_descr := some "nmap [flags] <target>",
                              flags := some flags, targets := some targets,
                              severity := "low" }
                let security := evaluate_command flags targets
                let ok := { ok with security := some security }
                if !security.allowed then
                  let issues :=
                    security.violations.map
                      (fun v => "Forbidden flag " ++ v.flag ++ ": " ++ v.reason) ++
                    security.target_validation.unsafe_targets.map
                      (fun t => "Unsafe target " ++ t.target ++ ": " ++ t.reason)
                  { ok with valid := false, blocked_by_security := true,
                            security_issues := some issues,
                            error := some "Command blocked by security rules.",
                            severity := security.risk_level }
                else
                  let ok :=
                    if !security.warnings.isEmpty then
                      { ok with warnings := some (security.warnings.map
                          (fun w => w.flag ++ ": " ++ w.reason)) }
                    else ok
                  { ok with risk_score := some (min 100 security.risk_score),
                            risk_level := some security.risk_level,
                            recommendation := some security.recommendation,
                            executed := some false,
                            execution_test :=
                              some ("[MOCK] Would execute: " ++ cmd') }

/-! ## `src/utils/execution_simulator.py` — Execution Simulator -/

/-- Source `ExecutionError` enumeration. -/
inductive ExecutionError where
  | PERMISSION_DENIED
  | NETWORK_UNREACHABLE
  | TIMEOUT
  | INVALID_ARGUMENT
  | PORT_SPECIFICATION
  | SCRIPT_NOT_FOUND
  | DNS_RESOLUTION
  | RESOURCE_LIMIT
  | SYNTAX_ERROR
  | UNKNOWN
  deriving DecidableEq, Repr

/-- Source `ExecutionError.value`. -/
def ExecutionError.value : ExecutionError → String
  | .PERMISSION_DENIED => "permission_denied"
  | .NETWORK_UNREACHABLE => "network_unreachable"
  | .TIMEOUT => "timeout"
  | .INVALID_ARGUMENT => "invalid_argument"
  | .PORT_SPECIFICATION => "port_specification"
  | .SCRIPT_NOT_FOUND => "script_not_found"
  | .DNS_RESOLUTION => "dns_resolution"
  | .RESOURCE_LIMIT => "resource_limit"
  | .SYNTAX_ERROR => "syntax_error"
  | .UNKNOWN => "unknown"

/-- One entry of `ErrorPattern.PATTERNS`.  The regexes in the table are
alternation-free and contain at most one `.*`; a pattern is kept as its
list of literal segments, which `re.search` requires to occur in order
(case-insensitively). -/
structure ErrorPatternEntry where
  segments : List String
  kind : ExecutionError
  subtype : String

/-- Helper for `patternMatches`: do the segments occur in order? -/
def segmentsInOrder : List (List Char) → List Char → Bool
  | [], _ => true
  | seg :: rest, hay =>
    match findSub seg hay with
    | some i => segmentsInOrder rest (hay.drop (i + seg.length))
    | none => false

/-- Do the pattern's literal segments occur in order (case-insensitive),
i.e. does `re.search (pattern, line, re.IGNORECASE)` succeed? -/
def patternMatches (segments : List String) (line : String) : Bool :=
  segmentsInOrder (segments.map (fun s => (lowerStr s).data))
    (lowerStr line).data

/-- Source `ErrorPattern.PATTERNS`, in order.  `NSE: Failed to load.*script` and
`script .* does not exist` are the two patterns with a `.*`. -/
def PATTERNS : List ErrorPatternEntry :=
  [⟨["Operation not permitted"], .PERMISSION_DENIED, "requires_root"⟩,
   ⟨["requires root privileges"], .PERMISSION_DENIED, "requires_root"⟩,
   ⟨["PCAP permission problem"], .PERMISSION_DENIED, "pcap_permission"⟩,
   ⟨["socket troubles"], .PERMISSION_DENIED, "socket_permission"⟩,
   ⟨["Failed to resolve"], .DNS_RESOLUTION, "dns_failure"⟩,
   ⟨["Could not resolve hostname"], .DNS_RESOLUTION, "hostname_invalid"⟩,
   ⟨["No route to host"], .NETWORK_UNREACHABLE, "no_route"⟩,
   ⟨["Host seems down"], .NETWORK_UNREACHABLE, "host_down"⟩,
   ⟨["Network is unreachable"], .NETWORK_UNREACHABLE, "network_unreachable"⟩,
   ⟨["Invalid argument"], .INVALID_ARGUMENT, "invalid_arg"⟩,
   ⟨["Unknown argument"], .INVALID_ARGUMENT, "unknown_arg"⟩,
   ⟨["Illegal port number"], .PORT_SPECIFICATION, "illegal_port"⟩,
   ⟨["Your port specifications are illegal"], .PORT_SPECIFICATION, "port_spec_error"⟩,
   ⟨["NSE: Failed to load", "script"], .SCRIPT_NOT_FOUND, "script_load_fail"⟩,
   ⟨["script ", " does not exist"], .SCRIPT_NOT_FOUND, "script_missing"⟩,
   ⟨["Unknown script"], .SCRIPT_NOT_FOUND, "unknown_script"⟩,
   ⟨["memory allocation problem"], .RESOURCE_LIMIT, "memory_limit"⟩,
   ⟨["Too many open files"], .RESOURCE_LIMIT, "file_limit"⟩,
   ⟨["nmap: unrecognized option"], .SYNTAX_ERROR, "unrecognized_option"⟩,
   ⟨["option requires an argument"], .SYNTAX_ERROR, "missing_argument"⟩]

/-- Source `ExecutionSimulator._determine_severity`. -/
def determine_severity (error_type : ExecutionError) : String :=
  let critical_errors : List ExecutionError :=
    [.PERMISSION_DENIED, .SYNTAX_ERROR, .TIMEOUT]
  let high_errors : List ExecutionError :=
    [.NETWORK_UNREACHABLE, .DNS_RESOLUTION, .SCRIPT_NOT_FOUND]
  if critical_errors.contains error_type then "critical"
  else if high_errors.contains error_type then "high"
  else "medium"

/-- An error record as appended to `result["errors"]`. -/
structure ErrRec where
  type : String
  message : String
  severity : String
  subtype : Option String := none
  deriving DecidableEq, Repr

/-- The record built for a matching pattern entry in
`_parse_error_output` (timestamps omitted). -/
def patternRecord (e : ErrorPatternEntry) (line : String) : ErrRec :=
  { type := e.kind.value, subtype := some e.subtype,
    message := pyStrip line,
    severity := determine_severity e.kind }

/-- The pattern loop of `_parse_error_output`. -/
def parse_error_patterns (line : String) : List ErrorPatternEntry → Option ErrRec
  | [] => none
  | e :: rest =>
    if patternMatches e.segments line then some (patternRecord e line)
    else parse_error_patterns line rest

/-- Source `ExecutionSimulator._parse_error_output` restricted to its effect on
`result["errors"]`: the first matching pattern yields the record. -/
def parse_error_output (line : String) : Option ErrRec :=
  parse_error_patterns line PATTERNS

/-- The `for … else` branch of `_parse_error_output`: a line matching no
error pattern but containing a warning keyword is recorded as a warning. -/
def is_warning_line (line : String) : Bool :=
  (parse_error_output line).isNone &&
    ["warning", "warn", "caution"].any
      (fun w => containsSub w.data (lowerStr line).data)

/-- The `execution` sub-dictionary of a simulation result (fields the
Self-Correction Agent reads). -/
structure ExecutionInfo where
  completed : Bool := false
  exit_code : Option Int := none
  deriving DecidableEq, Repr

/-- The simulation result dictionary (fields the agent and the analyzer
read). -/
structure ExecResult where
  command : String
  execution : ExecutionInfo
  errors : List ErrRec
  deriving DecidableEq, Repr

/-! ## `src/utils/agents/error_mapping_logic.py` — Correction-Rule Engine -/

/-- Source `CorrectionType` enumeration. -/
inductive CorrectionType where
  | REPLACE_FLAG
  | ADD_FLAG
  | REMOVE_FLAG
  | MODIFY_PARAMETER
  | CHANGE_SCAN_TYPE
  | ADJUST_TIMING
  | FIX_SYNTAX
  | SIMPLIFY_COMMAND
  | ESCALATE_PRIVILEGES
  | ALTERNATIVE_APPROACH
  deriving DecidableEq, Repr

/-- Source `CorrectionType.value`. -/
def CorrectionType.value : CorrectionType → String
  | .REPLACE_FLAG => "replace_flag"
  | .ADD_FLAG => "add_flag"
  | .REMOVE_FLAG => "remove_flag"
  | .MODIFY_PARAMETER => "modify_parameter"
  | .CHANGE_SCAN_TYPE => "change_scan_type"
  | .ADJUST_TIMING => "adjust_timing"
  | .FIX_SYNTAX => "fix_syntax"
  | .SIMPLIFY_COMMAND => "simplify_command"
  | .ESCALATE_PRIVILEGES => "escalate_privileges"
  | .ALTERNATIVE_APPROACH => "alternative_approach"

/-- The `correction_action` dictionaries of the rule table, rendered as a
data-only sum (each constructor mirrors one dictionary shape). -/
inductive CorrectionAction where
  | replacements (repls : List (String × String)) (reason : String)
  | removeFlags (remove : List String) (reason : String)
  | fixFunction (name : String)
  | addFlag (add : String) (reason : String)
  | alternatives (alts : List (String × List String)) (fallback : String)
  | timingAdjustments (adjustments : List (String × String)) (add_if_missing : String)
  | simplificationSteps (steps : List String)

/-- Source `ErrorMapping`; `error_pattern` is an alternation of segment lists
(each regex in the table is an alternation of literals with at most one
`.*` per branch), `confidence` is the Python float scaled by 100. -/
structure ErrorMapping where
  error_type : String
  error_pattern : List (List String)
  correction_type : CorrectionType
  correction_action : CorrectionAction
  confidence : Nat
  explanation : String

/-- Source `re.search (mapping.error_pattern, message, re.IGNORECASE)`. -/
def mappingPatternMatches (pat : List (List String)) (msg : String) : Bool :=
  pat.any (fun alt => patternMatches alt msg)

/-- Source `ErrorAnalyzer._initialize_mappings`, in order. -/
def error_mappings : List ErrorMapping :=
  [{ error_type := "permission_denied",
     error_pattern := [["requires_root"], ["Operation not permitted"]],
     correction_type := .REPLACE_FLAG,
     correction_action := .replacements
       [("-sS", "-sT"), ("-sA", "-sT"), ("-sF", "-sT"),
        ("-sX", "-sT"), ("-sN", "-sT"), ("-sU", "-sT")]
       "Stealth scans require root privileges",
     confidence := 95,
     explanation := "Replace stealth scan with TCP connect scan that doesn't require root" },
   { error_type := "permission_denied",
     error_pattern := [["PCAP permission problem"]],
     correction_type := .REMOVE_FLAG,
     correction_action := .removeFlags ["-O", "--osscan-guess"]
       "OS detection requires raw packet access",
     confidence := 90,
     explanation := "Remove OS detection flags that require elevated privileges" },
   { error_type := "port_specification",
     error_pattern := [["Illegal port number"], ["port specifications are illegal"]],
     correction_type := .FIX_SYNTAX,
     correction_action := .fixFunction "fix_port_syntax",
     confidence := 85,
     explanation := "Fix port specification syntax" },
   { error_type := "dns_resolution",
     error_pattern := [["Failed to resolve"], ["Could not resolve hostname"]],
     correction_type := .ADD_FLAG,
     correction_action := .addFlag "-n" "Skip DNS resolution for unreachable hosts",
     confidence := 80,
     explanation := "Add -n flag to skip DNS resolution" },
   { error_type := "script_not_found",
     error_pattern := [["Failed to load", "script"], ["script", "does not exist"]],
     correction_type := .ALTERNATIVE_APPROACH,
     correction_action := .alternatives
       [("vuln", ["default", "discovery"]),
        ("exploit", ["safe", "version"]),
        ("brute", ["auth", "default"])] "default",
     confidence := 75,
     explanation := "Replace unavailable script with safe alternative" },
   { error_type := "timeout",
     error_pattern := [["timed out"], ["timeout"]],
     correction_type := .ADJUST_TIMING,
     correction_action := .timingAdjustments
       [("-T5", "-T4"), ("-T4", "-T3"), ("-T3", "-T2")] "-T3",
     confidence := 85,
     explanation := "Reduce scan aggressiveness to prevent timeout" },
   { error_type := "network_unreachable",
     error_pattern := [["No route to host"], ["Network is unreachable"]],
     correction_type := .SIMPLIFY_COMMAND,
     correction_action := .simplificationSteps
       ["reduce_port_range", "single_target", "basic_scan"],
     confidence := 70,
     explanation := "Simplify command for unreachable network" },
   { error_type := "syntax_error",
     error_pattern := [["unrecognized option"], ["requires an argument"]],
     correction_type := .FIX_SYNTAX,
     correction_action := .fixFunction "fix_general_syntax",
     confidence := 80,
     explanation := "Fix command syntax errors" }]

/-- Source `ErrorAnalyzer._apply_replacements`: first substring-matching pair is
applied (to every occurrence), then the loop breaks. -/
def apply_replacements (command : String) (repls : List (String × String)) :
    String × List String :=
  match repls.find? (fun p => strContains command p.1) with
  | some (old, new) =>
    (strReplace command old new, ["Replaced " ++ old ++ " with " ++ new])
  | none => (command, [])

/-- Length of a `re` match of `\s*FLAG(?:\s+\S+)?` (with `withArg`) or
`\s*FLAG` (without) anchored at the head of `l`; `none` if no match. -/
def flagMatchLen (flag : List Char) (withArg : Bool) (l : List Char) : Option Nat :=
  let sp := l.takeWhile isPySpace
  let r1 := l.drop sp.length
  if flag ≠ [] && flag.isPrefixOf r1 then
    let r2 := r1.drop flag.length
    let base := sp.length + flag.length
    if withArg then
      let sp2 := r2.takeWhile isPySpace
      let tok := (r2.drop sp2.length).takeWhile (fun c => !isPySpace c)
      if !sp2.isEmpty && !tok.isEmpty then some (base + sp2.length + tok.length)
      else some base
    else some base
  else none

/-- Source `re.sub` of the above pattern with the empty replacement, all
occurrences left to right (the fuel starts at the list length; every
step consumes at least one character and one unit of fuel). -/
def remove_flag_fuel (flag : List Char) (withArg : Bool) :
    Nat → List Char → List Char
  | 0, l => l
  | _, [] => []
  | fuel + 1, c :: rest =>
    match flagMatchLen flag withArg (c :: rest) with
    | some m => remove_flag_fuel flag withArg fuel (rest.drop (m - 1))
    | none => c :: remove_flag_fuel flag withArg fuel rest

def remove_flag_occurrences (flag : List Char) (withArg : Bool)
    (l : List Char) : List Char :=
  remove_flag_fuel flag withArg l.length l

/-- Source `re.search (r'-T\d', command)`. -/
def hasTimingTemplate : List Char → Bool
  | '-' :: 'T' :: d :: rest => d.isDigit || hasTimingTemplate ('T' :: d :: rest)
  | _ :: rest => hasTimingTemplate rest
  | [] => false

/-- Source `ErrorAnalyzer._adjust_timing`. -/
def adjust_timing (command : String) (adjustments : List (String × String))
    (add_if_missing : String) : String × Option String :=
  match adjustments.find? (fun p => strContains command p.1) with
  | some (old, new) =>
    (strReplace command old new,
     some ("Adjusted timing from " ++ old ++ " to " ++ new))
  | none =>
    if !hasTimingTemplate command.data then
      (strReplace command "nmap" ("nmap " ++ add_if_missing),
       some ("Added " ++ add_if_missing ++ " timing template"))
    else (command, none)

/-- Leftmost capture of `re.search (r'-p\s+([^\s]+)', command)`. -/
def searchPortSpec : List Char → Option (List Char)
  | [] => none
  | c :: rest =>
    let tryHere : Option (List Char) :=
      if ['-', 'p'].isPrefixOf (c :: rest) then
        let r := (c :: rest).drop 2
        let sp := r.takeWhile isPySpace
        if sp.isEmpty then none
        else
          let tok := (r.drop sp.length).takeWhile (fun ch => !isPySpace ch)
          if tok.isEmpty then none else some tok
      else none
    match tryHere with
    | some t => some t
    | none => searchPortSpec rest

/-- Source `re.match (r'(\d+)-(\d+)', spec)`: a decimal range at the start. -/
def matchRangeAtStart (spec : List Char) : Option (Nat × Nat) :=
  let d1 := spec.takeWhile Char.isDigit
  if d1.isEmpty then none
  else
    match spec.drop d1.length with
    | '-' :: r2 =>
      let d2 := r2.takeWhile Char.isDigit
      if d2.isEmpty then none
      else
        let val := fun (l : List Char) => l.foldl (fun a c => a * 10 + (c.toNat - 48)) 0
        some (val d1, val d2)
    | _ => none

/-- Source `ErrorAnalyzer._fix_port_syntax`. -/
def fix_port_syntax (command : String) : String × List String :=
  match searchPortSpec command.data with
  | none => (command, [])
  | some specChars =>
    let port_spec : String := ⟨specChars⟩
    let (fixed1, ch1) :=
      match matchRangeAtStart specChars with
      | some (s, e) =>
        if s > e then
          let f := Nat.repr e ++ "-" ++ Nat.repr s
          (f, ["Fixed port range: " ++ port_spec ++ " -> " ++ f])
        else (port_spec, [])
      | none => (port_spec, [])
    let (fixed2, ch2) :=
      if strContains fixed1 ";" then
        (strReplace fixed1 ";" ",", ["Replaced ; with , in port specification"])
      else (fixed1, [])
    let corrected :=
      if fixed2 ≠ port_spec then
        strReplace command ("-p " ++ port_spec) ("-p " ++ fixed2)
      else command
    (corrected, ch1 ++ ch2)

/-- Leftmost capture of `re.search (r'--script[=\s]+([^\s]+)', command)`,
including the backtracking case where the separator run reaches the end
of the string and `[^\s]+` falls back to a trailing `=` run. -/
def searchScriptSpec : List Char → Option (List Char)
  | [] => none
  | c :: rest =>
    let tryHere : Option (List Char) :=
      if ("--script").data.isPrefixOf (c :: rest) then
        let r := (c :: rest).drop 8
        let sep := r.takeWhile (fun ch => ch = '=' || isPySpace ch)
        if sep.isEmpty then none
        else
          let r2 := r.drop sep.length
          if !r2.isEmpty then some (r2.takeWhile (fun ch => !isPySpace ch))
          else
            let tail := sep.drop 1
            match tail.reverse.findIdx? (fun ch => !isPySpace ch) with
            | some ri =>
              let k := sep.length - 1 - ri
              some ((sep.drop k).takeWhile (fun ch => !isPySpace ch))
            | none => none
      else none
    match tryHere with
    | some t => some t
    | none => searchScriptSpec rest

/-- Source `ErrorAnalyzer._apply_alternative`. -/
def apply_alternative (command : String) (alternatives : List (String × List String)) :
    String × Option String :=
  match searchScriptSpec command.data with
  | none => (command, none)
  | some cap =>
    let current : String := ⟨cap⟩
    match alternatives.find? (fun p => strContains current p.1) with
    | none => (command, none)
    | some (_, alts) =>
      match alts with
      | [] => (command, none)
      | new :: _ =>
        (strReplace command ("--script " ++ current) ("--script " ++ new),
         some ("Replaced script " ++ current ++ " with " ++ new))

/-- Leftmost groups of `re.search (r'-p\s+(\d+)-(\d+)', l)`. -/
def searchPortRangeNums : List Char → Option (Nat × Nat)
  | [] => none
  | c :: rest =>
    let tryHere : Option (Nat × Nat) :=
      if ['-', 'p'].isPrefixOf (c :: rest) then
        let r := (c :: rest).drop 2
        let sp := r.takeWhile isPySpace
        if sp.isEmpty then none
        else matchRangeAtStart (r.drop sp.length)
      else none
    match tryHere with
    | some t => some t
    | none => searchPortRangeNums rest

/-- Source `ErrorAnalyzer._simplify_command`. -/
def simplify_command (command : String) : String × List String :=
  let (c1, ch1) :=
    if strContains command "-p-" then
      (strReplace command "-p-" "-p 1-1000",
       ["Reduced port range from all to common ports (1-1000)"])
    else
      match searchPortRangeNums command.data with
      | some (s, e) =>
        if e - s > 100 then
          let new_end := s + 100
          (strReplace command ("-p " ++ Nat.repr s ++ "-" ++ Nat.repr e)
             ("-p " ++ Nat.repr s ++ "-" ++ Nat.repr new_end),
           ["Limited port range to 100 ports"])
        else (command, [])
      | none => (command, [])
  let aggressive_flags := ["-A", "--version-all", "-sV", "-O"]
  let (c2, ch2) := aggressive_flags.foldl
    (fun (acc : String × List String) flag =>
      if strContains acc.1 flag then
        (⟨remove_flag_occurrences flag.data false acc.1.data⟩,
         acc.2 ++ ["Removed aggressive option " ++ flag])
      else acc) (c1, ch1)
  let (c3, ch3) :=
    if strContains c2 "-T5" then
      (strReplace c2 "-T5" "-T3", ch2 ++ ["Reduced timing from T5 to T3"])
    else if strContains c2 "-T4" then
      (strReplace c2 "-T4" "-T3", ch2 ++ ["Reduced timing from T4 to T3"])
    else (c2, ch2)
  (pyStrip c3, ch3)

/-- The `correction` dictionary built by `ErrorAnalyzer._generate_correction`. -/
structure CorrectionOut where
  ctype : String
  original_command : String
  corrected_command : String
  changes : List String
  deriving Repr

/-- Source `ErrorAnalyzer._generate_correction`, dispatching on the action shape
(the rule table pairs each `correction_type` with exactly one shape). -/
def generate_correction (command : String) (m : ErrorMapping) : CorrectionOut :=
  let base : CorrectionOut :=
    { ctype := m.correction_type.value, original_command := command,
      corrected_command := command, changes := [] }
  match m.correction_action with
  | .replacements repls _ =>
    let (c, ch) := apply_replacements command repls
    { base with corrected_command := c, changes := ch }
  | .addFlag flag _ =>
    if !strContains command flag then
      { base with corrected_command := strReplace command "nmap" ("nmap " ++ flag),
                  changes := ["Added " ++ flag] }
    else base
  | .removeFlags flagsToRemove _ =>
    let (c, ch) := flagsToRemove.foldl
      (fun (acc : String × List String) flag =>
        if strContains acc.1 flag then
          (⟨remove_flag_occurrences flag.data true acc.1.data⟩,
           acc.2 ++ ["Removed " ++ flag])
        else acc) (command, [])
    { base with corrected_command := pyStrip c, changes := ch }
  | .timingAdjustments adjustments add_if_missing =>
    let (c, ch) := adjust_timing command adjustments add_if_missing
    { base with corrected_command := c, changes := ch.toList }
  | .fixFunction name =>
    if name = "fix_port_syntax" then
      let (c, ch) := fix_port_syntax command
      { base with corrected_command := c, changes := ch }
    else base
  | .alternatives alts _ =>
    let (c, ch) := apply_alternative command alts
    { base with corrected_command := c, changes := ch.toList }
  | .simplificationSteps _ =>
    let (c, ch) := simplify_command command
    { base with corrected_command := c, changes := ch }

/-- One element of the list returned by `ErrorAnalyzer.analyze_errors`. -/
structure Correction where
  error : ErrRec
  mapping : ErrorMapping
  correction : CorrectionOut
  confidence : Nat
  explanation : String

/-- Stable insertion keeping confidences descending (`list.sort` with
`reverse=True` is stable, so equal confidences keep discovery order). -/
def insertByConfDesc (x : Correction) : List Correction → List Correction
  | [] => [x]
  | y :: ys =>
    if y.confidence ≥ x.confidence then y :: insertByConfDesc x ys
    else x :: y :: ys

def sortByConfDesc (l : List Correction) : List Correction :=
  l.foldl (fun acc x => insertByConfDesc x acc) []

/-- Source `ErrorAnalyzer.analyze_errors` (the append-only history is advisory
and omitted): per error, the first mapping with equal `error_type` and a
message match contributes one correction; the result is sorted by
descending confidence. -/
def analyze_errors (r : ExecResult) : List Correction :=
  let corrections := r.errors.foldr
    (fun e acc =>
      match error_mappings.find?
          (fun m => m.error_type == e.type &&
            mappingPatternMatches m.error_pattern e.message) with
      | some m =>
        { error := e, mapping := m,
          correction := generate_correction r.command m,
          confidence := m.confidence, explanation := m.explanation } :: acc
      | none => acc) []
  sortByConfDesc corrections

/-! ## `src/utils/agents/self_correction_agent.py` — Self-Correction Agent

The sandboxed runner behind `ExecutionSimulator.simulate_execution` is an
external collaborator; it is abstracted as an oracle
`sim : String → SimOutcome`, and `simulate_execution` contributes the
`command` field of the report. -/

/-- The runner-dependent part of a simulation result. -/
structure SimOutcome where
  execution : ExecutionInfo
  errors : List ErrRec

/-- Source `SelfCorrectionAgent._execute_command` /
`ExecutionSimulator.simulate_execution` seen through the oracle. -/
def execute_command (sim : String → SimOutcome) (command : String) : ExecResult :=
  { command := command,
    execution := (sim command).execution,
    errors := (sim command).errors }

/-- Source `SelfCorrectionAgent._is_successful_execution`: no critical-severity
error, simulated exit code 0, and `completed` (default `False`). -/
def is_successful_execution (exec_result : ExecResult) : Bool :=
  (exec_result.errors.filter (fun e => e.severity == "critical")).isEmpty &&
  exec_result.execution.exit_code == some 0 &&
  exec_result.execution.completed

/-- The fix entries of `AUTONOMOUS_FIXES`, as data-only transform kinds:
`literalSub` for the plain patterns (`-sS`, `-sA`), `portRangeSwap` for
the `-p\s+(\d+)-(\d+)` fix guarded by its reversed-range check,
`scriptDefaultSub` for `--script\s+[^-\s]+` → `--script default`, and
`timingT45Sub` for `-T[45]` → `-T3`. -/
inductive AutoFix where
  | literalSub (pattern replacement reason : String)
  | portRangeSwap (reason : String)
  | scriptDefaultSub (reason : String)
  | timingT45Sub (reason : String)

structure AutoFixEntry where
  key : String
  description : String
  repair_type : String
  fixes : List AutoFix
  dangerous_scripts : List String := []

/-- Source `SelfCorrectionAgent.AUTONOMOUS_FIXES`, in insertion order. -/
def AUTONOMOUS_FIXES : List AutoFixEntry :=
  [{ key := "permission_denied",
     description := "Permission error - switching to TCP Connect scan",
     repair_type := "permission_fix",
     fixes := [.literalSub "-sS" "-sT"
                 "TCP Connect scan (-sT) doesn't require root privileges",
               .literalSub "-sA" "-sT"
                 "TCP Connect scan (-sT) is safer alternative"] },
   { key := "invalid_port_range",
     description := "Invalid port range specification",
     repair_type := "syntax_fix",
     fixes := [.portRangeSwap "Reversed port range - correcting to ascending order"] },
   { key := "dangerous_script",
     description := "Using potentially dangerous NSE scripts",
     repair_type := "script_whitelist",
     dangerous_scripts := ["exploit", "brute-force", "malware"],
     fixes := [.scriptDefaultSub "Replacing unsafe scripts with default safe scripts"] },
   { key := "timing_too_aggressive",
     description := "Timing template is too aggressive",
     repair_type := "timing_adjustment",
     fixes := [.timingT45Sub "Reducing timing from aggressive to moderate"] }]

/-- Match of `-p\s+(\d+)-(\d+)` anchored at the head of `l`:
(group 1, group 2, match length). -/
def portSwapMatch (l : List Char) : Option (Nat × Nat × Nat) :=
  if ['-', 'p'].isPrefixOf l then
    let r := l.drop 2
    let sp := r.takeWhile isPySpace
    if sp.isEmpty then none
    else
      let r1 := r.drop sp.length
      let d1 := r1.takeWhile Char.isDigit
      if d1.isEmpty then none
      else
        match r1.drop d1.length with
        | '-' :: r2 =>
          let d2 := r2.takeWhile Char.isDigit
          if d2.isEmpty then none
          else
            let val := fun (dl : List Char) =>
              dl.foldl (fun a c => a * 10 + (c.toNat - 48)) 0
            some (val d1, val d2,
              2 + sp.length + d1.length + 1 + d2.length)
        | _ => none
  else none

/-- Source `re.sub (r'-p\s+(\d+)-(\d+)', a function swapping the groups, l)`: every match is
swapped (the reversed-range check is evaluated once, on the first match,
before this runs). -/
def subAllPortSwapFuel : Nat → List Char → List Char
  | 0, l => l
  | _, [] => []
  | fuel + 1, c :: rest =>
    match portSwapMatch (c :: rest) with
    | some (g1, g2, m) =>
      ("-p " ++ Nat.repr g2 ++ "-" ++ Nat.repr g1).data ++
        subAllPortSwapFuel fuel (rest.drop (m - 1))
    | none => c :: subAllPortSwapFuel fuel rest

def subAllPortSwap (l : List Char) : List Char :=
  subAllPortSwapFuel l.length l

/-- Match length of `--script\s+[^-\s]+` anchored at the head of `l`. -/
def scriptSubMatchLen (l : List Char) : Option Nat :=
  if ("--script").data.isPrefixOf l then
    let r := l.drop 8
    let sp := r.takeWhile isPySpace
    if sp.isEmpty then none
    else
      let tok := (r.drop sp.length).takeWhile
        (fun ch => !(ch = '-') && !isPySpace ch)
      if tok.isEmpty then none
      else some (8 + sp.length + tok.length)
  else none

/-- Source `re.sub (r'--script\s+[^-\s]+', "--script default", l)`. -/
def subAllScriptDefaultFuel : Nat → List Char → List Char
  | 0, l => l
  | _, [] => []
  | fuel + 1, c :: rest =>
    match scriptSubMatchLen (c :: rest) with
    | some m =>
      ("--script default").data ++ subAllScriptDefaultFuel fuel (rest.drop (m - 1))
    | none => c :: subAllScriptDefaultFuel fuel rest

def subAllScriptDefault (l : List Char) : List Char :=
  subAllScriptDefaultFuel l.length l

/-- Is there a match of `-T[45]` anywhere? -/
def hasT45 : List Char → Bool
  | '-' :: 'T' :: d :: rest =>
    d = '4' || d = '5' || hasT45 ('T' :: d :: rest)
  | _ :: rest => hasT45 rest
  | [] => false

/-- Source `re.sub (r'-T[45]', "-T3", l)`. -/
def subAllT45 : List Char → List Char
  | '-' :: 'T' :: d :: rest =>
    if d = '4' || d = '5' then ("-T3").data ++ subAllT45 rest
    else '-' :: subAllT45 ('T' :: d :: rest)
  | c :: rest => c :: subAllT45 rest
  | [] => []

/-- Apply one fix of an `AUTONOMOUS_FIXES` entry to the running command;
the second component is the change description to append (for fixes
without a `check`, the reason is appended whether or not the pattern
matched, exactly as in the source). -/
def applyAutoFix (fix : AutoFix) (cmd : String) : String × Option String :=
  match fix with
  | .literalSub pat repl reason =>
    (if strContains cmd pat then strReplace cmd pat repl else cmd, some reason)
  | .portRangeSwap reason =>
    match searchPortRangeNums cmd.data with
    | some (g1, g2) =>
      if g1 > g2 then (⟨subAllPortSwap cmd.data⟩, some reason) else (cmd, none)
    | none => (cmd, none)
  | .scriptDefaultSub reason =>
    ((if (cmd.data.tails.any (fun t => (scriptSubMatchLen t).isSome)) then
        (⟨subAllScriptDefault cmd.data⟩ : String) else cmd), some reason)
  | .timingT45Sub reason =>
    (if hasT45 cmd.data then (⟨subAllT45 cmd.data⟩ : String) else cmd, some reason)

structure RepairResult where
  repaired_command : String
  repair_type : String
  changes : List String
  description : String
  original_error_type : String
  deriving Repr

/-- Source `SelfCorrectionAgent.attempt_autonomous_repair`. -/
def attempt_autonomous_repair (command : String) (error_type : String) :
    Option RepairResult :=
  match AUTONOMOUS_FIXES.find? (fun e => e.key == error_type) with
  | none => none
  | some cfg =>
    let (repaired, changes) := cfg.fixes.foldl
      (fun (acc : String × List String) fix =>
        let (c, r) := applyAutoFix fix acc.1
        (c, acc.2 ++ r.toList)) (command, [])
    let (repaired, changes) :=
      if error_type == "dangerous_script" then
        match cfg.dangerous_scripts.find? (fun s => strContains repaired s) with
        | some _ =>
          (⟨subAllScriptDefault repaired.data⟩,
           changes ++ ["Replaced dangerous script with default"])
        | none => (repaired, changes)
      else (repaired, changes)
    if repaired == command && changes.isEmpty then none
    else some { repaired_command := repaired, repair_type := cfg.repair_type,
                changes := changes, description := cfg.description,
                original_error_type := error_type }

structure CorrectionAttempt where
  attempt_number : Nat
  original_command : String
  corrected_command : String
  errors_before : List ErrRec
  errors_after : Option (List ErrRec) := none
  success : Bool := false
  changes_made : List String := []
  repair_type : Option String := none
  deriving Repr

structure Recommendation where
  action : String
  suggestion : String
  priority : String
  deriving DecidableEq, Repr

/-- A feedback dictionary; keys absent from the Python dict are `none`. -/
structure Feedback where
  type : String
  session_id : String := ""
  reason : Option String := none
  attempts_made : Option Nat := none
  persistent_errors : List String := []
  recommendations : List Recommendation := []
  requires_m3_retry : Bool := false
  success : Option Bool := none
  total_attempts : Option Nat := none
  is_autonomous_repair : Option Bool := none
  final_command : Option (Option String) := none
  corrections_applied : Option (List String) := none
  source_agent : Option String := none
  persistent_issues : Option (List String) := none
  recommended_action : Option String := none
  deriving Repr

structure CorrectionSession where
  session_id : String
  original_command : String
  original_intent : String
  attempts : List CorrectionAttempt := []
  final_command : Option String := none
  success : Bool := false
  is_autonomous_repair : Bool := false
  feedback_generated : List Feedback := []
  deriving Repr

/-- Source `SelfCorrectionAgent._generate_upstream_feedback` (the `last_result`
argument is unused in the source body): "persistent" means the total
occurrence count of the error type across all attempts' `errors_before`
is at least the number of attempts; keys are in first-occurrence order. -/
def generate_upstream_feedback (session : CorrectionSession)
    (max_attempts : Nat) (reason : String) : Feedback :=
  let all_errors := session.attempts.foldr (fun a acc => a.errors_before ++ acc) []
  let all_types := all_errors.map (·.type)
  let keys := all_types.foldl
    (fun acc t => if acc.contains t then acc else acc ++ [t]) []
  let persistent := keys.filter
    (fun t => (all_types.filter (· == t)).length ≥ session.attempts.length)
  let fb0 : Feedback :=
    { type := "complete_regeneration", session_id := session.session_id,
      reason := some reason, attempts_made := some session.attempts.length,
      persistent_errors := persistent, requires_m3_retry := true }
  let fb1 :=
    if persistent.contains "permission_denied" then
      { fb0 with type := "privilege_escalation",
                 recommendations := fb0.recommendations ++
                   [⟨"avoid_root_requiring_scans",
                     "Use TCP connect scan (-sT) instead of SYN scan", "high"⟩] }
    else fb0
  let fb2 :=
    if persistent.contains "network_unreachable" then
      { fb1 with type := "target_modification",
                 recommendations := fb1.recommendations ++
                   [⟨"verify_target_accessibility",
                     "Check if target is accessible or use different target", "high"⟩] }
    else fb1
  let fb3 :=
    if persistent.contains "script_not_found" then
      { fb2 with type := "alternative_approach",
                 recommendations := fb2.recommendations ++
                   [⟨"use_basic_scripts",
                     "Stick to default or safe script categories", "medium"⟩] }
    else fb2
  if session.attempts.length ≥ max_attempts then
    { fb3 with type := "complexity_reduction",
               recommendations := fb3.recommendations ++
                 [⟨"simplify_command",
                   "Generate simpler command with fewer options", "high"⟩] }
  else fb3

/-- Source `SelfCorrectionAgent._analyze_persistent_issues`: the last attempt's
`errors_after or errors_before` (Python `or` falls through on `None` or
an empty list), formatted. -/
def analyze_persistent_issues (session : CorrectionSession) : List String :=
  match session.attempts.getLast? with
  | none => []
  | some last =>
    let last_errors :=
      match last.errors_after with
      | some l => if l.isEmpty then last.errors_before else l
      | none => last.errors_before
    last_errors.map (fun e => e.type ++ ": " ++ e.message)

/-- Source `SelfCorrectionAgent._recommend_final_action`. -/
def recommend_final_action (session : CorrectionSession) : String :=
  if session.attempts.isEmpty then
    "No attempts made - check initial command validity"
  else
    let hasType := fun (t : String) =>
      session.attempts.any (fun a => a.errors_before.any (fun e => e.type == t))
    if hasType "permission_denied" then
      "Request elevated privileges or use alternative scan methods"
    else if hasType "network_unreachable" then
      "Verify network connectivity and target accessibility"
    else if hasType "syntax_error" then
      "Regenerate command with correct syntax"
    else
      "Consider simplifying requirements or using alternative approach"

/-- Source `SelfCorrectionAgent._generate_final_feedback`. -/
def generate_final_feedback (session : CorrectionSession) : Feedback :=
  let fb : Feedback :=
    { type := "final_summary", session_id := session.session_id,
      success := some session.success,
      total_attempts := some session.attempts.length,
      is_autonomous_repair := some session.is_autonomous_repair }
  if session.success then
    { fb with final_command := some session.final_command,
              corrections_applied := some (session.attempts.foldr
                (fun a acc =>
                  if !a.changes_made.isEmpty then a.changes_made ++ acc else acc) []),
              source_agent := some (if session.is_autonomous_repair then
                "SELF-CORR-AUTO" else "SELF-CORR-ITER") }
  else
    { fb with persistent_issues := some (analyze_persistent_issues session),
              recommended_action := some (recommend_final_action session),
              requires_m3_retry := true }

/-- The iterative loop of `correct_command`
(`for attempt_num in range (1, max_attempts + 1)`), with the remaining
iteration count as fuel. -/
def correction_loop (sim : String → SimOutcome) (command : String)
    (max_attempts : Nat) :
    Nat → Nat → String → CorrectionSession → CorrectionSession
  | _, 0, _, session => session
  | attempt_num, fuel + 1, current_command, session =>
    let original :=
      if attempt_num = 1 then command
      else match session.attempts.getLast? with
        | some a => a.corrected_command
        | none => command
    let exec_result := execute_command sim current_command
    let attempt0 : CorrectionAttempt :=
      { attempt_number := attempt_num, original_command := original,
        corrected_command := current_command,
        errors_before := exec_result.errors }
    if is_successful_execution exec_result then
      { session with success := true, final_command := some current_command,
                     attempts := session.attempts ++ [{ attempt0 with success := true }] }
    else
      match analyze_errors exec_result with
      | [] =>
        let session := { session with attempts := session.attempts ++ [attempt0] }
        let feedback :=
          generate_upstream_feedback session max_attempts "no_corrections_available"
        { session with feedback_generated := session.feedback_generated ++ [feedback] }
      | best :: _ =>
        let corrected_command := best.correction.corrected_command
        let attempt1 := { attempt0 with corrected_command := corrected_command,
                                        changes_made := best.correction.changes }
        if corrected_command ≠ current_command then
          let test_result := execute_command sim corrected_command
          let attempt2 := { attempt1 with errors_after := some test_result.errors }
          if is_successful_execution test_result then
            { session with success := true,
                           final_command := some corrected_command,
                           attempts := session.attempts ++ [{ attempt2 with success := true }] }
          else
            let session := { session with attempts := session.attempts ++ [attempt2] }
            let session :=
              if attempt_num = max_attempts - 1 then
                { session with feedback_generated := session.feedback_generated ++
                    [generate_upstream_feedback session max_attempts
                      "max_attempts_approaching"] }
              else session
            correction_loop sim command max_attempts (attempt_num + 1) fuel
              corrected_command session
        else
          let session := { session with attempts := session.attempts ++ [attempt1] }
          let session :=
            if attempt_num = max_attempts - 1 then
              { session with feedback_generated := session.feedback_generated ++
                  [generate_upstream_feedback session max_attempts
                    "max_attempts_approaching"] }
            else session
          correction_loop sim command max_attempts (attempt_num + 1) fuel
            corrected_command session

/-- The autonomous-repair phase of `correct_command` (the block guarded
by `validation_status == "Repairable"`), returning the session so far and
the command the iterative loop starts from. -/
def autonomous_phase (sim : String → SimOutcome) (command : String)
    (validation_status : String) (session0 : CorrectionSession) :
    CorrectionSession × String :=
  if validation_status == "Repairable" then
    let exec_result := execute_command sim command
    match exec_result.errors with
    | [] => (session0, command)
    | e0 :: _ =>
      match attempt_autonomous_repair command e0.type with
      | none => (session0, command)
      | some repair =>
        let repaired := repair.repaired_command
        let test_result := execute_command sim repaired
        let attempt : CorrectionAttempt :=
          { attempt_number := 1, original_command := command,
            corrected_command := repaired,
            errors_before := exec_result.errors }
        if is_successful_execution test_result then
          ({ session0 with success := true, is_autonomous_repair := true,
                           final_command := some repaired,
                           attempts := [{ attempt with success := true }] },
           repaired)
        else
          ({ session0 with attempts := session0.attempts ++ [attempt] },
           repaired)
  else (session0, command)

/-- Source `SelfCorrectionAgent.correct_command` (the time-based session id and
timestamps are environment-dependent and fixed to a constant): autonomous
repair first (with an early return on its success), then the iterative
loop, then the final feedback on failure. -/
def correct_command (sim : String → SimOutcome) (command intent : String)
    (validation_status : String) (max_attempts : Nat) : CorrectionSession :=
  let session0 : CorrectionSession :=
    { session_id := "session_0", original_command := command,
      original_intent := intent }
  let phase1 := autonomous_phase sim command validation_status session0
  if phase1.1.success then phase1.1
  else
    let session2 :=
      correction_loop sim command max_attempts 1 max_attempts phase1.2 phase1.1
    if !session2.success then
      { session2 with feedback_generated := session2.feedback_generated ++
          [generate_final_feedback session2] }
    else session2

/-! ## `backend/app/orchestrator/engine.py` — Escalation Orchestrator

The generators (RAG / LLM / diffusion), the Validator and the
self-correction agent are external collaborators; they are abstracted as
oracles.  A raised exception is `none` (generator, self-correction) or
`Except.error` (validator, whose exceptions `handle` catches and converts
to an `invalid` result).  Scores are modelled as rationals. -/

structure CommandCandidate where
  command : String
  source_agent : String := "unknown"
  deriving DecidableEq, Repr

structure ValidationResult where
  status : String
  score : ℚ
  issues : List String := []
  deriving DecidableEq, Repr

structure FinalDecision where
  command : String
  confidence : ℚ
  deriving DecidableEq, Repr

/-- Source `Orchestrator._finalize`. -/
def finalize (cand : CommandCandidate) (v : ValidationResult) : FinalDecision :=
  { command := cand.command, confidence := v.score }

/-- The escalation chain `["easy", "medium", "hard"]`. -/
def tier_chain : List String := ["easy", "medium", "hard"]

/-- Source `Orchestrator._generate` from a given level: on generator failure,
recursively escalate to the next level; failure of the last level raises
(`none`). -/
def generate_from (gen : String → Option CommandCandidate) :
    List String → Option CommandCandidate
  | [] => none
  | lvl :: rest =>
    match gen lvl with
    | some c => some c
    | none =>
      match rest with
      | [] => none
      | _ => generate_from gen rest

/-- The inner validation/self-correction loop of `Orchestrator.handle`
(`for attempt in range (1, MAX_CORRECTIONS + 2)`): `some` is a returned
decision, `none` is a break (escalate) or attempt exhaustion. -/
def validation_loop (valE : CommandCandidate → Except String ValidationResult)
    (repair : CommandCandidate → ValidationResult → Option CommandCandidate) :
    Nat → CommandCandidate → Option FinalDecision
  | 0, _ => none
  | fuel + 1, cand =>
    let v :=
      match valE cand with
      | .ok v => v
      | .error _ =>
        { status := "invalid", score := 0,
          issues := ["Erreur interne lors de la validation"] }
    if v.status = "valid" then some (finalize cand v)
    else if v.status = "repairable" then
      match repair cand v with
      | some c2 => validation_loop valE repair fuel c2
      | none => none
    else none

/-- The tier loop of `Orchestrator.handle`, starting at `start_index`
(the complexity classifier is external and provides the index). -/
def handle_tiers (gen : String → Option CommandCandidate)
    (valE : CommandCandidate → Except String ValidationResult)
    (repair : CommandCandidate → ValidationResult → Option CommandCandidate)
    (max_corrections : Nat) :
    Nat → Nat → Except String FinalDecision
  | 0, _ => .error "Impossible de générer une commande valide"
  | fuel + 1, idx =>
    if idx < tier_chain.length then
      match generate_from gen (tier_chain.drop idx) with
      | none => .error "Service indisponible : échec de génération de commande"
      | some cand =>
        match validation_loop valE repair (max_corrections + 1) cand with
        | some d => .ok d
        | none => handle_tiers gen valE repair max_corrections fuel (idx + 1)
    else .error "Impossible de générer une commande valide"

/-- Source `Orchestrator.handle` after comprehension/complexity classification
(both external): run the tier chain from the classifier's start index. -/
def orchestrator_handle (gen : String → Option CommandCandidate)
    (valE : CommandCandidate → Except String ValidationResult)
    (repair : CommandCandidate → ValidationResult → Option CommandCandidate)
    (max_corrections : Nat) (start_index : Nat) : Except String FinalDecision :=
  handle_tiers gen valE repair max_corrections
    (tier_chain.length - start_index) start_index

/-! ## Concrete oracles used to exercise the model -/

/-- A runner on which every command succeeds. -/
def sim_ok : String → SimOutcome := fun _ =>
  { execution := { completed := true, exit_code := some 0 }, errors := [] }

/-- A runner on which every command fails with a critical
`permission_denied` error whose message is `Operation not permitted`. -/
def sim_perm_denied : String → SimOutcome := fun _ =>
  { execution := { completed := true, exit_code := some 1 },
    errors := [{ type := "permission_denied",
                 message := "Operation not permitted",
                 severity := "critical" }] }

/-- A generator that succeeds on every tier. -/
def gen_all_tiers : String → Option CommandCandidate :=
  fun lvl => some { command := "cmd-" ++ lvl }

/-- A validator that accepts only the tier-3 candidate. -/
def val_hard_only : CommandCandidate → Except String ValidationResult :=
  fun c => .ok (if c.command = "cmd-hard" then
    { status := "valid", score := 1 } else { status := "invalid", score := 0 })

/-- A self-correction oracle that always fails. -/
def rep_none : CommandCandidate → ValidationResult → Option CommandCandidate :=
  fun _ _ => none

end NmapPipeline

namespace NmapPipeline

/-! ## Supporting lemmas -/

theorem parse_error_patterns_eq_find (line : String)
    (l : List ErrorPatternEntry) :
    parse_error_patterns line l =
      (l.find? (fun q => patternMatches q.segments line)).map
        (fun e => patternRecord e line) := by
  induction l with
  | nil => rfl
  | cons e rest ih =>
    by_cases h : patternMatches e.segments line
    · simp [parse_error_patterns, List.find?_cons, h]
    · simp [parse_error_patterns, List.find?_cons, h, ih]

/-! ## Claims -/

/-- C10: for every command and every simulator-emitted `ErrorKind` other
than `permission_denied`, `attempt_autonomous_repair` returns `None`,
because the other keys of `AUTONOMOUS_FIXES` (`invalid_port_range`,
`dangerous_script`, `timing_too_aggressive`) are not values of the
simulator's `ExecutionError` enumeration. -/
theorem C10_autonomous_repair_only_permission (k : ExecutionError)
    (h : k ≠ ExecutionError.PERMISSION_DENIED) (cmd : String) :
    attempt_autonomous_repair cmd k.value = none := by
  cases k
  case PERMISSION_DENIED => exact absurd rfl h
  all_goals rfl

/-- Witness for C10 at the `port_specification` kind. -/
theorem C10_witness :
    attempt_autonomous_repair "nmap -p 80-70 example.com"
      ExecutionError.PORT_SPECIFICATION.value = none ∧
    ExecutionError.PORT_SPECIFICATION ≠ ExecutionError.PERMISSION_DENIED := by
  refine ⟨?_, by decide⟩
  exact C10_autonomous_repair_only_permission ExecutionError.PORT_SPECIFICATION
    (by decide) "nmap -p 80-70 example.com"

/-- C7: for every line, the first entry of the ordered pattern table that
matches (case-insensitively) determines the resulting record's kind and
subtype, and the severity map sends `permission_denied`, `syntax_error`
and `timeout` to `critical`, `network_unreachable`, `dns_resolution` and
`script_not_found` to `high`, and everything else to `medium`. -/
theorem C7_pattern_table_and_severity :
    (∀ line : String,
      (∀ p, PATTERNS.find? (fun q => patternMatches q.segments line) = some p →
        parse_error_output line =
          some { type := p.kind.value, subtype := some p.subtype,
                 message := pyStrip line,
                 severity := determine_severity p.kind }) ∧
      (PATTERNS.find? (fun q => patternMatches q.segments line) = none →
        parse_error_output line = none)) ∧
    (∀ k : ExecutionError,
      (determine_severity k = "critical" ↔
        (k = .PERMISSION_DENIED ∨ k = .SYNTAX_ERROR ∨ k = .TIMEOUT)) ∧
      (determine_severity k = "high" ↔
        (k = .NETWORK_UNREACHABLE ∨ k = .DNS_RESOLUTION ∨ k = .SCRIPT_NOT_FOUND)) ∧
      (determine_severity k = "medium" ↔
        (¬(k = .PERMISSION_DENIED ∨ k = .SYNTAX_ERROR ∨ k = .TIMEOUT) ∧
         ¬(k = .NETWORK_UNREACHABLE ∨ k = .DNS_RESOLUTION ∨ k = .SCRIPT_NOT_FOUND)))) := by
  constructor
  · intro line
    constructor
    · intro p hp
      rw [parse_error_output, parse_error_patterns_eq_find, hp]
      rfl
    · intro hn
      rw [parse_error_output, parse_error_patterns_eq_find, hn]
      rfl
  · intro k
    cases k <;> exact ⟨by decide, by decide, by decide⟩

/-- Witness for C7 at the line `Operation not permitted`. -/
theorem C7_witness :
    PATTERNS.find?
        (fun q => patternMatches q.segments "Operation not permitted") =
      some ⟨["Operation not permitted"], .PERMISSION_DENIED, "requires_root"⟩ ∧
    parse_error_output "Operation not permitted" =
      some { type := "permission_denied", subtype := some "requires_root",
             message := "Operation not permitted", severity := "critical" } := by
  refine ⟨rfl, ?_⟩
  exact (C7_pattern_table_and_severity.1 "Operation not permitted").1
    ⟨["Operation not permitted"], .PERMISSION_DENIED, "requires_root"⟩ rfl

/-- C6: when the tier-1 and tier-2 candidates are judged `invalid` and
the tier-3 candidate is judged `valid`, the orchestrator returns the
tier-3 candidate's command with the validator's score as confidence. -/
theorem C6_escalation_to_tier3
    (gen : String → Option CommandCandidate)
    (valE : CommandCandidate → Except String ValidationResult)
    (repair : CommandCandidate → ValidationResult → Option CommandCandidate)
    (max_corrections : Nat)
    (c1 c2 c3 : CommandCandidate) (v1 v2 v3 : ValidationResult)
    (hg1 : gen "easy" = some c1) (hg2 : gen "medium" = some c2)
    (hg3 : gen "hard" = some c3)
    (hv1 : valE c1 = .ok v1) (hs1 : v1.status = "invalid")
    (hv2 : valE c2 = .ok v2) (hs2 : v2.status = "invalid")
    (hv3 : valE c3 = .ok v3) (hs3 : v3.status = "valid") :
    orchestrator_handle gen valE repair max_corrections 0 =
      .ok { command := c3.command, confidence := v3.score } := by
  have e1 : validation_loop valE repair (max_corrections + 1) c1 = none := by
    rw [validation_loop]
    simp [hv1, hs1]
  have e2 : validation_loop valE repair (max_corrections + 1) c2 = none := by
    rw [validation_loop]
    simp [hv2, hs2]
  have e3 : validation_loop valE repair (max_corrections + 1) c3 =
      some (finalize c3 v3) := by
    rw [validation_loop]
    simp [hv3, hs3]
  rw [orchestrator_handle]
  show handle_tiers gen valE repair max_corrections 3 0 = _
  rw [handle_tiers]
  simp only [tier_chain, List.length_cons, List.length_nil, List.drop,
    generate_from, hg1, hg2, hg3, e1, e2, e3]
  norm_num
  rw [handle_tiers]
  simp only [tier_chain, List.length_cons, List.length_nil, List.drop,
    generate_from, hg2, hg3, e2, e3]
  norm_num
  rw [handle_tiers]
  simp only [tier_chain, List.length_cons, List.length_nil, List.drop,
    generate_from, hg3, e3]
  norm_num [finalize]

/-- Witness for C6 with concrete generator/validator oracles. -/
theorem C6_witness :
    orchestrator_handle gen_all_tiers val_hard_only rep_none 3 0 =
      .ok { command := "cmd-hard", confidence := 1 } := by
  exact C6_escalation_to_tier3 gen_all_tiers val_hard_only rep_none 3
    { command := "cmd-easy" } { command := "cmd-medium" } { command := "cmd-hard" }
    { status := "invalid", score := 0 } { status := "invalid", score := 0 }
    { status := "valid", score := 1 }
    rfl rfl rfl rfl rfl rfl rfl rfl rfl

/-- C8: a command produced by any correction transform can always be fed
back through the validator's parsing and the risk scoring without a
raised exception: a quoting error surfaces as a rejection outcome, a
non-IP-shaped target is classified safe (`domain_allowed`), and an
IP-shaped but unparsable target never fails the unsafe-range check (the
`ValueError` is caught and the target counts as safe). -/
theorem C8_reparse_never_raises :
    (∀ cmd e, cmd ≠ "" → hasInjection (pyStrip cmd) = false →
      shlexSplit (pyStrip cmd) = .error e →
      validate_nmap_command cmd =
        { command := cmd, valid := false, severity := "high",
          error := some ("Command parsing failed: " ++ e) }) ∧
    (∀ t, is_safe_test_target t = false → ip_shaped t = false →
      check_targets [t] =
        { unsafe_targets := [], safe_targets := [⟨t, "domain_allowed"⟩] }) ∧
    (∀ s, parse_ip_network s = none →
      is_ip_in_unsafe_range s = (false, none)) := by
  refine ⟨?_, ?_, ?_⟩
  · intro cmd e hne hinj hsh
    rw [validate_nmap_command]
    rw [if_neg hne, if_neg (by simp [hinj]), hsh]
  · intro t hsafe hip
    rw [check_targets]
    simp [hsafe, hip]
  · intro s hp
    rw [is_ip_in_unsafe_range, hp]

/-- Witness for C8: a quoting error, a domain target, and an IP-shaped but
invalid target. -/
theorem C8_witness :
    validate_nmap_command "nmap 'x" =
      { command := "nmap 'x", valid := false, severity := "high",
        error := some "Command parsing failed: No closing quotation" } ∧
    check_targets ["example.com"] =
      { unsafe_targets := [], safe_targets := [⟨"example.com", "domain_allowed"⟩] } ∧
    is_ip_in_unsafe_range "300.1.2.3" = (false, none) := by
  refine ⟨?_, ?_, ?_⟩
  · exact C8_reparse_never_raises.1 "nmap 'x" "No closing quotation"
      (by decide) rfl rfl
  · exact C8_reparse_never_raises.2.1 "example.com" rfl rfl
  · exact C8_reparse_never_raises.2.2 "300.1.2.3" (by decide)

/-- C4, counterexample: the validator compares the first token
case-insensitively (`parts[0].lower() != "nmap"`), so the command
`NMAP -sV scanme.nmap.org`, whose first token is not exactly `nmap`, is
accepted rather than rejected. -/
theorem C4_counterexample :
    ((shlexSplit (pyStrip "NMAP -sV scanme.nmap.org")).toOption.bind
        List.head? = some "NMAP") ∧
    "NMAP" ≠ "nmap" ∧
    (validate_nmap_command "NMAP -sV scanme.nmap.org").valid = true := by
  refine ⟨by decide, by decide, by decide⟩

/-- C4, amended: a raw command whose first token *lowercased* is not
`nmap` is rejected with the fixed error message, and the validator never
reaches flag/target separation or risk scoring (the `flags`, `targets`
and `security` keys are absent from the response). -/
theorem C4_reject_non_nmap_first_token (cmd p0 : String) (parts : List String)
    (h0 : cmd ≠ "") (h1 : hasInjection (pyStrip cmd) = false)
    (h2 : shlexSplit (pyStrip cmd) = .ok (p0 :: parts))
    (h3 : lowerStr p0 ≠ "nmap") :
    validate_nmap_command cmd =
      { command := cmd, valid := false, severity := "high",
        error := some "Command must start with 'nmap'." } := by
  rw [validate_nmap_command, if_neg h0, if_neg (by simp [h1]), h2]
  simp [h3]

/-- Witness for the amended C4 at `ping 8.8.8.8`. -/
theorem C4_witness :
    lowerStr "ping" ≠ "nmap" ∧
    validate_nmap_command "ping 8.8.8.8" =
      { command := "ping 8.8.8.8", valid := false, severity := "high",
        error := some "Command must start with 'nmap'." } := by
  refine ⟨by decide, ?_⟩
  exact C4_reject_non_nmap_first_token "ping 8.8.8.8" "ping" ["8.8.8.8"]
    (by decide) rfl rfl (by decide)

/-- C5: for `nmap -p 80-70 example.com` with a `port_specification` error
whose message matches the port-rule pattern, the Correction-Rule Engine's
top-ranked correction contains `-p 70-80` (the reversed range swapped to
ascending order). -/
theorem C5_port_range_swap (msg : String)
    (h : mappingPatternMatches
        [["Illegal port number"], ["port specifications are illegal"]] msg = true) :
    ((analyze_errors
        { command := "nmap -p 80-70 example.com",
          execution := {},
          errors := [{ type := "port_specification", message := msg,
                       severity := "high" }] }).head?.map
        (fun c => c.correction.corrected_command) =
      some "nmap -p 70-80 example.com") ∧
    strContains "nmap -p 70-80 example.com" "-p 70-80" = true := by
  refine ⟨?_, by decide⟩
  have hb1 : (("permission_denied" : String) == "port_specification") = false := by
    decide
  have hb2 : (("port_specification" : String) == "port_specification") = true := by
    decide
  rw [analyze_errors]
  simp only [error_mappings, List.foldr_cons, List.foldr_nil,
    List.find?_cons, hb1, hb2, Bool.false_and, Bool.true_and, h]
  rfl

/-- Witness for C5 at the message `Your port specifications are illegal`. -/
theorem C5_witness :
    mappingPatternMatches
        [["Illegal port number"], ["port specifications are illegal"]]
        "Your port specifications are illegal" = true ∧
    ((analyze_errors
        { command := "nmap -p 80-70 example.com",
          execution := {},
          errors := [{ type := "port_specification",
                       message := "Your port specifications are illegal",
                       severity := "high" }] }).head?.map
        (fun c => c.correction.corrected_command) =
      some "nmap -p 70-80 example.com") := by
  refine ⟨by decide, ?_⟩
  exact (C5_port_range_swap "Your port specifications are illegal" (by decide)).1

/-! Counting lemmas for the Risk Engine: no forbidden-flag table key is a
prefix of another, so a flag contributes at most one violation. -/

theorem length_filterMap_if {α β : Type} (l : List α) (q : α → Bool)
    (g : α → β) :
    (l.filterMap (fun x => if q x then some (g x) else none)).length =
      (l.filter q).length := by
  induction l with
  | nil => rfl
  | cons a t ih =>
    by_cases h : q a <;>
      simp [List.filterMap_cons, List.filter_cons, h, ih]

theorem filter_length_le_one {α : Type} (l : List α) (p : α → Bool)
    (h : l.Pairwise (fun a b => ¬(p a = true ∧ p b = true))) :
    (l.filter p).length ≤ 1 := by
  induction l with
  | nil => simp
  | cons a t ih =>
    rcases List.pairwise_cons.mp h with ⟨ha, ht⟩
    by_cases hpa : p a = true
    · have hnil : t.filter p = [] := by
        rw [List.filter_eq_nil_iff]
        intro b hb hpb
        exact ha b hb ⟨hpa, hpb⟩
      simp [List.filter_cons, hpa, hnil]
    · simp only [List.filter_cons, hpa]
      simpa using ih ht

theorem forbidden_keys_pairwise :
    FORBIDDEN_FLAGS.Pairwise (fun a b =>
      a.1.data.isPrefixOf b.1.data = false ∧
      b.1.data.isPrefixOf a.1.data = false) := by
  decide

theorem forbidden_filter_le_one (f : String) :
    (FORBIDDEN_FLAGS.filter (fun p => strStartsWith f p.1)).length ≤ 1 := by
  apply filter_length_le_one
  refine forbidden_keys_pairwise.imp ?_
  intro a b hab hcon
  rcases hcon with ⟨ha, hb⟩
  have ha' : a.1.data <+: f.data := List.isPrefixOf_iff_prefix.mp ha
  have hb' : b.1.data <+: f.data := List.isPrefixOf_iff_prefix.mp hb
  rcases List.prefix_or_prefix_of_prefix ha' hb' with hc | hc
  · rw [← List.isPrefixOf_iff_prefix] at hc
    rw [hab.1] at hc
    exact Bool.false_ne_true hc
  · rw [← List.isPrefixOf_iff_prefix] at hc
    rw [hab.2] at hc
    exact Bool.false_ne_true hc

theorem forbidden_per_flag_count (f : String) :
    (FORBIDDEN_FLAGS.filterMap (fun p => if strStartsWith f p.1 then
        some (⟨f, p.2, "critical"⟩ : FlagViolation) else none)).length =
      if FORBIDDEN_FLAGS.any (fun p => strStartsWith f p.1) then 1 else 0 := by
  rw [length_filterMap_if]
  by_cases h : FORBIDDEN_FLAGS.any (fun p => strStartsWith f p.1) = true
  · rw [if_pos h]
    have hle := forbidden_filter_le_one f
    obtain ⟨x, hx, hpx⟩ := List.any_eq_true.mp h
    have hmem : x ∈ FORBIDDEN_FLAGS.filter (fun p => strStartsWith f p.1) :=
      List.mem_filter.mpr ⟨hx, hpx⟩
    have hge := List.length_pos_of_mem hmem
    omega
  · rw [if_neg h]
    have hnil : FORBIDDEN_FLAGS.filter (fun p => strStartsWith f p.1) = [] := by
      rw [List.filter_eq_nil_iff]
      intro a ha hpa
      exact h (List.any_eq_true.mpr ⟨a, ha, hpa⟩)
    rw [hnil]
    rfl

theorem check_forbidden_flags_length (flags : List String) :
    (check_forbidden_flags flags).length =
      (flags.filter (fun f =>
        FORBIDDEN_FLAGS.any (fun p => strStartsWith f p.1))).length := by
  induction flags with
  | nil => rfl
  | cons f t ih =>
    rw [check_forbidden_flags] at *
    rw [List.foldr_cons, List.length_append, ih, List.filter_cons]
    by_cases h : FORBIDDEN_FLAGS.any (fun p => strStartsWith f p.1) = true
    · rw [forbidden_per_flag_count, if_pos h, h]
      simp [Nat.add_comm]
    · rw [forbidden_per_flag_count, if_neg h]
      simp only [Bool.not_eq_true] at h
      rw [h]
      simp

/-- C1, counterexample: the flag list `["--script", "-sS"]` contains
exactly one flag that prefix-matches the forbidden table and the target
list is free of unsafe targets, yet the risk score is 50 (the `-sS`
warning flag adds 10), not 40. -/
theorem C1_counterexample :
    ((["--script", "-sS"].filter (fun f =>
        FORBIDDEN_FLAGS.any (fun p => strStartsWith f p.1))).length = 1) ∧
    (check_targets ([] : List String)).unsafe_targets = [] ∧
    (evaluate_command ["--script", "-sS"] []).risk_score = 50 ∧
    (evaluate_command ["--script", "-sS"] []).risk_score ≠ 40 := by
  refine ⟨by decide, by decide, by decide, by decide⟩

/-- C1, amended: with exactly one flag prefix-matching the forbidden
table, *no flag prefix-matching the warning table*, and no unsafe
targets, the Risk Engine returns `risk_score = 40`,
`risk_level = "high"` and `allowed = false`. -/
theorem C1_single_forbidden_flag (flags targets : List String)
    (h1 : (flags.filter (fun f =>
        FORBIDDEN_FLAGS.any (fun p => strStartsWith f p.1))).length = 1)
    (h2 : check_warning_flags flags = [])
    (h3 : (check_targets targets).unsafe_targets = []) :
    (evaluate_command flags targets).risk_score = 40 ∧
    (evaluate_command flags targets).risk_level = "high" ∧
    (evaluate_command flags targets).allowed = false := by
  have hf : (check_forbidden_flags flags).length = 1 := by
    rw [check_forbidden_flags_length]
    exact h1
  have hne : (check_forbidden_flags flags).isEmpty = false := by
    rcases List.length_eq_one.mp hf with ⟨a, ha⟩
    rw [ha]
    rfl
  have hue : (check_targets targets).unsafe_targets.isEmpty = true := by
    rw [h3]
    rfl
  unfold evaluate_command
  simp only [hf, h2, h3, hne, hue, List.length_nil]
  norm_num [TargetCheck.has_unsafe, hue]

/-- Witness for the amended C1: one forbidden flag, no warning flag, one
safe test target. -/
theorem C1_witness :
    ((["--script"].filter (fun f =>
        FORBIDDEN_FLAGS.any (fun p => strStartsWith f p.1))).length = 1) ∧
    check_warning_flags ["--script"] = [] ∧
    (check_targets ["scanme.nmap.org"]).unsafe_targets = [] ∧
    ((evaluate_command ["--script"] ["scanme.nmap.org"]).risk_score = 40 ∧
     (evaluate_command ["--script"] ["scanme.nmap.org"]).risk_level = "high" ∧
     (evaluate_command ["--script"] ["scanme.nmap.org"]).allowed = false) := by
  refine ⟨by decide, by decide, by decide, ?_⟩
  exact C1_single_forbidden_flag ["--script"] ["scanme.nmap.org"]
    (by decide) (by decide) (by decide)

/-! Invariants of the iterative correction loop. -/

theorem correction_loop_attempts_le (sim : String → SimOutcome)
    (command : String) (max_attempts : Nat) :
    ∀ (fuel n : Nat) (cur : String) (s : CorrectionSession),
      (correction_loop sim command max_attempts n fuel cur s).attempts.length ≤
        s.attempts.length + fuel := by
  intro fuel
  induction fuel with
  | zero =>
    intro n cur s
    simp [correction_loop]
  | succ fuel ih =>
    intro n cur s
    simp only [correction_loop]
    split
    · simp
    · split
      · simp
      · split
        · split
          · simp
          · split
            · refine le_trans (ih (n + 1) _ _) ?_
              simp
              omega
            · refine le_trans (ih (n + 1) _ _) ?_
              simp
              omega
        · split
          · refine le_trans (ih (n + 1) _ _) ?_
            simp
            omega
          · refine le_trans (ih (n + 1) _ _) ?_
            simp
            omega

theorem correction_loop_final (sim : String → SimOutcome)
    (command : String) (max_attempts : Nat) :
    ∀ (fuel n : Nat) (cur : String) (s : CorrectionSession),
      s.success = false → s.final_command = none →
      ((correction_loop sim command max_attempts n fuel cur s).success = false →
        (correction_loop sim command max_attempts n fuel cur s).final_command = none) ∧
      ((correction_loop sim command max_attempts n fuel cur s).success = true →
        ∃ f, (correction_loop sim command max_attempts n fuel cur s).final_command
            = some f ∧
          is_successful_execution (execute_command sim f) = true) := by
  intro fuel
  induction fuel with
  | zero =>
    intro n cur s hs hf
    simp [correction_loop, hs, hf]
  | succ fuel ih =>
    intro n cur s hs hf
    simp only [correction_loop]
    split
    · next hsucc =>
      constructor
      · intro hc
        simp at hc
      · intro _
        exact ⟨cur, rfl, hsucc⟩
    · next hnsucc =>
      split
      · constructor
        · intro _
          exact hf
        · intro hc
          rw [hs] at hc
          exact absurd hc (by simp)
      · next best rest heq =>
        split
        · split
          · next htest =>
            constructor
            · intro hc
              simp at hc
            · intro _
              exact ⟨best.correction.corrected_command, rfl, htest⟩
          · split
            · exact ih (n + 1) _ _ hs hf
            · exact ih (n + 1) _ _ hs hf
        · split
          · exact ih (n + 1) _ _ hs hf
          · exact ih (n + 1) _ _ hs hf

theorem autonomous_phase_spec (sim : String → SimOutcome)
    (command status : String) (s0 : CorrectionSession)
    (h0 : s0.success = false) (h0' : s0.final_command = none) :
    ((autonomous_phase sim command status s0).1.success = true →
      ∃ f, (autonomous_phase sim command status s0).1.final_command = some f ∧
        is_successful_execution (execute_command sim f) = true) ∧
    ((autonomous_phase sim command status s0).1.success = false →
      (autonomous_phase sim command status s0).1.final_command = none) ∧
    (autonomous_phase sim command status s0).1.attempts.length ≤
      s0.attempts.length + 1 := by
  simp only [autonomous_phase]
  split
  · split
    · simp [h0, h0']
    · split
      · simp [h0, h0']
      · split
        · next htest =>
          refine ⟨?_, ?_, ?_⟩
          · intro _
            exact ⟨_, rfl, htest⟩
          · intro hc
            simp at hc
          · simp
        · simp [h0, h0']
  · simp [h0, h0']

theorem feedback_update_attempts (s : CorrectionSession) (v : List Feedback) :
    ({ s with feedback_generated := v } : CorrectionSession).attempts =
      s.attempts := rfl

theorem feedback_update_success (s : CorrectionSession) (v : List Feedback) :
    ({ s with feedback_generated := v } : CorrectionSession).success =
      s.success := rfl

theorem feedback_update_final (s : CorrectionSession) (v : List Feedback) :
    ({ s with feedback_generated := v } : CorrectionSession).final_command =
      s.final_command := rfl

/-- C9: a correction session records at most `max_attempts + 1` attempts:
at most one from the autonomous-repair phase and at most one per
iteration of the bounded loop. -/
theorem C9_attempts_bounded (sim : String → SimOutcome)
    (cmd intent status : String) (max_attempts : Nat) :
    (correct_command sim cmd intent status max_attempts).attempts.length ≤
      max_attempts + 1 := by
  have h1 := (autonomous_phase_spec sim cmd status
    { session_id := "session_0", original_command := cmd,
      original_intent := intent } rfl rfl).2.2
  have h2 := correction_loop_attempts_le sim cmd max_attempts max_attempts 1
    (autonomous_phase sim cmd status
      { session_id := "session_0", original_command := cmd,
        original_intent := intent }).2
    (autonomous_phase sim cmd status
      { session_id := "session_0", original_command := cmd,
        original_intent := intent }).1
  simp only [correct_command]
  split
  · simp only [List.length_nil] at h1
    omega
  · split
    · rw [feedback_update_attempts]
      simp only [List.length_nil] at h1
      omega
    · simp only [List.length_nil] at h1
      omega

/-- C2: `_is_successful_execution` returns true iff the report has no
critical-severity error, exit code 0 and `completed = true`; it is the
sole success gate: a session succeeds only with a final command whose
simulated execution passes this check, and a failed session has no final
command. -/
theorem C2_success_criterion :
    (∀ r : ExecResult,
      is_successful_execution r = true ↔
        ((∀ e ∈ r.errors, ¬e.severity = "critical") ∧
         r.execution.exit_code = some 0 ∧ r.execution.completed = true)) ∧
    (∀ (sim : String → SimOutcome) (cmd intent status : String) (ma : Nat),
      (correct_command sim cmd intent status ma).success = true →
      ∃ f, (correct_command sim cmd intent status ma).final_command = some f ∧
        is_successful_execution (execute_command sim f) = true) ∧
    (∀ (sim : String → SimOutcome) (cmd intent status : String) (ma : Nat),
      (correct_command sim cmd intent status ma).success = false →
      (correct_command sim cmd intent status ma).final_command = none) := by
  refine ⟨?_, ?_, ?_⟩
  · intro r
    simp [is_successful_execution, List.isEmpty_iff, List.filter_eq_nil_iff,
      and_assoc]
  · intro sim cmd intent status ma
    have ha := autonomous_phase_spec sim cmd status
      { session_id := "session_0", original_command := cmd,
        original_intent := intent } rfl rfl
    simp only [correct_command]
    split
    · next hs => exact fun _ => ha.1 hs
    · next hs =>
      have hsf := eq_false_of_ne_true hs
      have hl := correction_loop_final sim cmd ma ma 1
        (autonomous_phase sim cmd status
          { session_id := "session_0", original_command := cmd,
            original_intent := intent }).2
        (autonomous_phase sim cmd status
          { session_id := "session_0", original_command := cmd,
            original_intent := intent }).1 hsf (ha.2.1 hsf)
      split
      · intro hsucc
        rw [feedback_update_success] at hsucc
        obtain ⟨f, h3, h4⟩ := hl.2 hsucc
        exact ⟨f, by rw [feedback_update_final]; exact h3, h4⟩
      · intro hsucc
        exact hl.2 hsucc
  · intro sim cmd intent status ma
    have ha := autonomous_phase_spec sim cmd status
      { session_id := "session_0", original_command := cmd,
        original_intent := intent } rfl rfl
    simp only [correct_command]
    split
    · next hs =>
      intro hc
      rw [hs] at hc
      exact absurd hc (by simp)
    · next hs =>
      have hsf := eq_false_of_ne_true hs
      have hl := correction_loop_final sim cmd ma ma 1
        (autonomous_phase sim cmd status
          { session_id := "session_0", original_command := cmd,
            original_intent := intent }).2
        (autonomous_phase sim cmd status
          { session_id := "session_0", original_command := cmd,
            original_intent := intent }).1 hsf (ha.2.1 hsf)
      split
      · intro hsucc
        rw [feedback_update_success] at hsucc
        rw [feedback_update_final]
        exact hl.1 hsucc
      · intro hsucc
        exact hl.1 hsucc

/-- Witness for C2 on a runner where every command immediately passes the
success criterion. -/
theorem C2_witness :
    (correct_command sim_ok "nmap -sT example.com" "" "Invalid" 3).success = true ∧
    ∃ f, (correct_command sim_ok "nmap -sT example.com" "" "Invalid" 3).final_command
          = some f ∧
      is_successful_execution (execute_command sim_ok f) = true := by
  refine ⟨by decide, ?_⟩
  exact C2_success_criterion.2.1 sim_ok "nmap -sT example.com" "" "Invalid" 3
    (by decide)

theorem analyze_persistent_issues_attempts (s : CorrectionSession)
    (v : List Feedback) :
    analyze_persistent_issues ({ s with feedback_generated := v }) =
      analyze_persistent_issues s := by
  simp only [analyze_persistent_issues]

theorem recommend_final_action_attempts (s : CorrectionSession)
    (v : List Feedback) :
    recommend_final_action ({ s with feedback_generated := v }) =
      recommend_final_action s := by
  simp only [recommend_final_action]

theorem recommend_final_action_permission (s : CorrectionSession)
    (h1 : s.attempts ≠ [])
    (h2 : s.attempts.any (fun a =>
        a.errors_before.any (fun e => e.type == "permission_denied")) = true) :
    recommend_final_action s =
      "Request elevated privileges or use alternative scan methods" := by
  rw [recommend_final_action]
  rw [if_neg (by simpa [List.isEmpty_iff] using h1)]
  simp only [h2, if_pos]

/-- C3, counterexample: on a runner that always reports a critical
`permission_denied` error, the failed session has `permission_denied` in
every attempt's `errors_before` (so it is persistent in the claim's
sense), yet the feedback record emitted after the loop has kind
`final_summary`, not `privilege_escalation`. -/
theorem C3_counterexample :
    (correct_command sim_perm_denied "nmap -sS -p 80 example.com" ""
        "Invalid" 3).success = false ∧
    (correct_command sim_perm_denied "nmap -sS -p 80 example.com" ""
        "Invalid" 3).attempts.length = 3 ∧
    ((correct_command sim_perm_denied "nmap -sS -p 80 example.com" ""
        "Invalid" 3).attempts.all (fun a =>
          a.errors_before.any (fun e => e.type == "permission_denied"))) = true ∧
    ((correct_command sim_perm_denied "nmap -sS -p 80 example.com" ""
        "Invalid" 3).feedback_generated.getLast?.map (fun f => f.type)) =
      some "final_summary" ∧
    ("final_summary" : String) ≠ "privilege_escalation" := by
  refine ⟨by decide, by decide, by decide, by decide, by decide⟩

/-- C3, amended: the record emitted after the loop of a failed session is
the *final summary* (kind `final_summary`, never `privilege_escalation`):
its persistent issues are the last attempt's errors (`errors_after` if
non-empty, else `errors_before`) and its recommended action is the
privilege-escalation recommendation string whenever `permission_denied`
occurs in any attempt's `errors_before` (per-kind counting happens only
in the *interim* upstream feedback, `generate_upstream_feedback`). -/
theorem C3_final_feedback (sim : String → SimOutcome)
    (cmd intent status : String) (ma : Nat) :
    (correct_command sim cmd intent status ma).success = false →
    ∃ fb,
      (correct_command sim cmd intent status ma).feedback_generated.getLast? =
        some fb ∧
      fb.type = "final_summary" ∧
      fb.persistent_issues =
        some (analyze_persistent_issues
          (correct_command sim cmd intent status ma)) ∧
      fb.recommended_action =
        some (recommend_final_action (correct_command sim cmd intent status ma)) ∧
      ((correct_command sim cmd intent status ma).attempts ≠ [] →
        ((correct_command sim cmd intent status ma).attempts.any (fun a =>
          a.errors_before.any (fun e => e.type == "permission_denied"))) = true →
        fb.recommended_action =
          some "Request elevated privileges or use alternative scan methods") := by
  intro h
  by_cases hb1 : (autonomous_phase sim cmd status
      { session_id := "session_0", original_command := cmd,
        original_intent := intent }).1.success = true
  · rw [show correct_command sim cmd intent status ma =
        (autonomous_phase sim cmd status
          { session_id := "session_0", original_command := cmd,
            original_intent := intent }).1 from by
      simp [correct_command, hb1]] at h
    rw [hb1] at h
    exact absurd h (by simp)
  · have hb1' := eq_false_of_ne_true hb1
    by_cases hb2 : (correction_loop sim cmd ma 1 ma
        (autonomous_phase sim cmd status
          { session_id := "session_0", original_command := cmd,
            original_intent := intent }).2
        (autonomous_phase sim cmd status
          { session_id := "session_0", original_command := cmd,
            original_intent := intent }).1).success = true
    · rw [show correct_command sim cmd intent status ma =
          correction_loop sim cmd ma 1 ma
            (autonomous_phase sim cmd status
              { session_id := "session_0", original_command := cmd,
                original_intent := intent }).2
            (autonomous_phase sim cmd status
              { session_id := "session_0", original_command := cmd,
                original_intent := intent }).1 from by
        simp [correct_command, hb1', hb2]] at h
      rw [hb2] at h
      exact absurd h (by simp)
    · have hb2' := eq_false_of_ne_true hb2
      have heq : correct_command sim cmd intent status ma =
          { correction_loop sim cmd ma 1 ma
              (autonomous_phase sim cmd status
                { session_id := "session_0", original_command := cmd,
                  original_intent := intent }).2
              (autonomous_phase sim cmd status
                { session_id := "session_0", original_command := cmd,
                  original_intent := intent }).1 with
            feedback_generated :=
              (correction_loop sim cmd ma 1 ma
                (autonomous_phase sim cmd status
                  { session_id := "session_0", original_command := cmd,
                    original_intent := intent }).2
                (autonomous_phase sim cmd status
                  { session_id := "session_0", original_command := cmd,
                    original_intent := intent }).1).feedback_generated ++
              [generate_final_feedback
                (correction_loop sim cmd ma 1 ma
                  (autonomous_phase sim cmd status
                    { session_id := "session_0", original_command := cmd,
                      original_intent := intent }).2
                  (autonomous_phase sim cmd status
                    { session_id := "session_0", original_command := cmd,
                      original_intent := intent }).1)] } := by
        simp [correct_command, hb1', hb2']
      rw [heq]
      generalize (correction_loop sim cmd ma 1 ma
        (autonomous_phase sim cmd status
          { session_id := "session_0", original_command := cmd,
            original_intent := intent }).2
        (autonomous_phase sim cmd status
          { session_id := "session_0", original_command := cmd,
            original_intent := intent }).1) = s2 at hb2' ⊢
      refine ⟨generate_final_feedback s2, ?_, ?_, ?_, ?_, ?_⟩
      · show (s2.feedback_generated ++ [generate_final_feedback s2]).getLast? = _
        exact List.getLast?_concat _
      · simp [generate_final_feedback, hb2']
      · rw [analyze_persistent_issues_attempts]
        simp [generate_final_feedback, hb2']
      · rw [recommend_final_action_attempts]
        simp [generate_final_feedback, hb2']
      · intro hne hany
        rw [feedback_update_attempts] at hne hany
        have hrec := recommend_final_action_permission s2 hne hany
        simp [generate_final_feedback, hb2', hrec]

/-- Witness for the amended C3 on the always-`permission_denied` runner. -/
theorem C3_witness :
    (correct_command sim_perm_denied "nmap -sS -p 80 example.com" ""
        "Invalid" 3).success = false ∧
    ∃ fb,
      (correct_command sim_perm_denied "nmap -sS -p 80 example.com" ""
          "Invalid" 3).feedback_generated.getLast? = some fb ∧
      fb.type = "final_summary" ∧
      fb.persistent_issues =
        some (analyze_persistent_issues
          (correct_command sim_perm_denied "nmap -sS -p 80 example.com" ""
            "Invalid" 3)) ∧
      fb.recommended_action =
        some (recommend_final_action
          (correct_command sim_perm_denied "nmap -sS -p 80 example.com" ""
            "Invalid" 3)) ∧
      ((correct_command sim_perm_denied "nmap -sS -p 80 example.com" ""
          "Invalid" 3).attempts ≠ [] →
        ((correct_command sim_perm_denied "nmap -sS -p 80 example.com" ""
            "Invalid" 3).attempts.any (fun a =>
          a.errors_before.any (fun e => e.type == "permission_denied"))) = true →
        fb.recommended_action =
          some "Request elevated privileges or use alternative scan methods") := by
  refine ⟨by decide, ?_⟩
  exact C3_final_feedback sim_perm_denied "nmap -sS -p 80 example.com" ""
    "Invalid" 3 (by decide)

end NmapPipeline
